import Mathlib

/-!
# NALT Protocol: validator and migrator, verified against the repository sources

This file shallowly embeds the NALT Protocol validation and migration code:

* the `NALTValidator` class embedded in `docs/AI_DOCUMENTATION.md` (ajv with
  `allErrors: true` over the embedded draft-07 schema, followed by the
  `customValidations` cross-field pass);
* the JSON Schema files: `schema/v1.1.1/schema.json` (which contains the
  v1.1.1 schema followed by the v1.0.0 schema), the v1.1.0 schema embedded in
  the v1.1.0 edition of the AI documentation, and the v1.2.0 (slim-core)
  schema file;
* the `NALTMigrator` class of `docs/AI_DOCUMENTATION.md` (target hardwired to
  `'1.1.1'`, step functions `migrateFrom_1_0_0`, `migrateFrom_1_1_0`,
  `migrateFrom_1_1_0_to_1_1_1`, `migrateFrom_1_1_1`), the `NALTMigrator` of
  the v1.1.0 documentation (its `migrateFrom_1_0_0` is the 1.0.0→1.1.0 step),
  and the Python `migrate_document` / `migrate_entry` functions of the
  v1.1.1→v1.2.0 migration script.

Modelling conventions:
* JSON values are `JValue`; numbers are exact decimals `JNum` (mantissa ×
  10^(-exp)).  IEEE floating point is idealized to exact decimal arithmetic.
* JavaScript objects / Python dicts are association lists in insertion order;
  `oset` updates an existing key in place or appends a new one, `odel`
  removes a key — matching both languages on the duplicate-free objects that
  JSON parsing produces.
* Clock reads (`new Date().toISOString()`, `datetime.utcnow()`) and
  randomness (`Math.random` inside `generateUUID`) are explicit parameters.
* Code paths that throw (`undefined.match`, `.map` on a non-array) are
  modelled with `Option`, `none` standing for the raised exception.
-/

/-- An exact decimal number `mant / 10 ^ exp`, the value set of JSON number
literals.  Exact, no float rounding. -/
structure JNum where
  mant : Int
  exp : Nat
deriving DecidableEq, Repr

namespace JNum

/-- Comparison `a ≤ b` on exact decimals (cross-multiplied, denominators positive). -/
def le (a b : JNum) : Bool := a.mant * (10 : Int) ^ b.exp ≤ b.mant * (10 : Int) ^ a.exp

/-- Whether `a` has integer value (JSON Schema `"type": "integer"`). -/
def isInt (a : JNum) : Bool := a.mant % ((10 : Int) ^ a.exp) == 0

/-- Whether `a` is an exact integer multiple of `s` (JSON Schema `multipleOf`:
division of the instance by the keyword value results in an integer). -/
def isMultipleOf (a s : JNum) : Bool :=
  (a.mant * (10 : Int) ^ s.exp) % (s.mant * (10 : Int) ^ a.exp) == 0

/-- JS `Math.round(q * 100) / 100`, i.e. `⌊q*100 + 1/2⌋ / 100`, on exact
decimals. -/
def round2 (a : JNum) : JNum :=
  ⟨Int.fdiv (2 * a.mant * 100 + (10 : Int) ^ a.exp) (2 * (10 : Int) ^ a.exp), 2⟩

/-- Whether `a` is nonzero (JS truthiness of a number; `NaN` cannot occur in parsed
JSON and is not modelled). -/
def isNonZero (a : JNum) : Bool := a.mant != 0

end JNum

/-- A parsed JSON value: the generic key→value tree both the validator and the
migrator operate on.  Objects are association lists in insertion order. -/
inductive JValue where
  | null
  | bool (b : Bool)
  | num (q : JNum)
  | str (s : String)
  | arr (items : List JValue)
  | obj (fields : List (String × JValue))
deriving Inhabited, Repr

mutual
/-- Structural (value) equality on JSON values, the equality JS `Set.has`
(SameValueZero) applies to the string ids this code stores in sets. -/
def JValue.beq : JValue → JValue → Bool
  | .null, .null => true
  | .bool a, .bool b => a == b
  | .num a, .num b => a == b
  | .str a, .str b => a == b
  | .arr a, .arr b => JValue.beqList a b
  | .obj a, .obj b => JValue.beqObj a b
  | _, _ => false
def JValue.beqList : List JValue → List JValue → Bool
  | [], [] => true
  | a :: as, b :: bs => JValue.beq a b && JValue.beqList as bs
  | _, _ => false
def JValue.beqObj : List (String × JValue) → List (String × JValue) → Bool
  | [], [] => true
  | (k, a) :: as, (l, b) :: bs => k == l && JValue.beq a b && JValue.beqObj as bs
  | _, _ => false
end

instance : BEq JValue := ⟨JValue.beq⟩

/-- First binding of key `k` (JS property read / Python `dict` lookup;
parsed JSON objects are duplicate-free). -/
def oget : List (String × JValue) → String → Option JValue
  | [], _ => none
  | (k', v) :: t, k => if k' = k then some v else oget t k

/-- Property write: update the existing key in place, else append (JS
assignment / Python `dict` item assignment). -/
def oset : List (String × JValue) → String → JValue → List (String × JValue)
  | [], k, v => [(k, v)]
  | (k', v') :: t, k, v => if k' = k then (k, v) :: t else (k', v') :: oset t k v

/-- Property removal (JS `delete` / Python `dict.pop`). -/
def odel : List (String × JValue) → String → List (String × JValue)
  | [], _ => []
  | (k', v') :: t, k => if k' = k then odel t k else (k', v') :: odel t k

/-- Property read on a value: `undefined` (absent, or the base is not an
object) is `none`. -/
def jget (d : JValue) (k : String) : Option JValue :=
  match d with
  | .obj fs => oget fs k
  | _ => none

/-- Property read through an `Option` (used after fallible steps). -/
def ojget (d : Option JValue) (k : String) : Option JValue :=
  d.bind (fun v => jget v k)

/-- JS truthiness of a property read: `undefined`, `null`, `false`, `0` and
`""` are falsy; objects and arrays (even empty) are truthy. -/
def jsTruthy : Option JValue → Bool
  | none => false
  | some .null => false
  | some (.bool b) => b
  | some (.num q) => q.isNonZero
  | some (.str s) => s ≠ ""
  | some (.arr _) => true
  | some (.obj _) => true

/-! ## Association-list lemmas -/

theorem oget_oset_self (l : List (String × JValue)) (k : String) (v : JValue) :
    oget (oset l k v) k = some v := by
  induction l with
  | nil => simp [oget, oset]
  | cons h t ih =>
    obtain ⟨k', v'⟩ := h
    by_cases hk : k' = k
    · simp [oset, oget, hk]
    · simp [oset, oget, hk, ih]

theorem oget_oset_ne (l : List (String × JValue)) (k k' : String) (v : JValue)
    (h : k' ≠ k) : oget (oset l k v) k' = oget l k' := by
  induction l with
  | nil => simp [oget, oset, Ne.symm h]
  | cons hd t ih =>
    obtain ⟨k0, v0⟩ := hd
    by_cases hk : k0 = k
    · subst hk
      simp [oset, oget, Ne.symm h]
    · simp only [oset, if_neg hk, oget]
      by_cases hk' : k0 = k'
      · simp [hk']
      · simp [hk', ih]

theorem oget_odel_self (l : List (String × JValue)) (k : String) :
    oget (odel l k) k = none := by
  induction l with
  | nil => simp [oget, odel]
  | cons hd t ih =>
    obtain ⟨k0, v0⟩ := hd
    by_cases hk : k0 = k
    · simp [odel, hk, ih]
    · simp [odel, oget, hk, ih]

theorem oget_odel_ne (l : List (String × JValue)) (k k' : String) (h : k' ≠ k) :
    oget (odel l k) k' = oget l k' := by
  induction l with
  | nil => simp [odel]
  | cons hd t ih =>
    obtain ⟨k0, v0⟩ := hd
    by_cases hk : k0 = k
    · subst hk
      simp [odel, oget, Ne.symm h, ih]
    · simp only [odel, if_neg hk, oget]
      by_cases hk' : k0 = k'
      · simp [hk']
      · simp [hk', ih]

theorem oget_mem {l : List (String × JValue)} {k : String} {v : JValue}
    (h : oget l k = some v) : (k, v) ∈ l := by
  induction l with
  | nil => simp [oget] at h
  | cons hd t ih =>
    obtain ⟨k0, v0⟩ := hd
    by_cases hk : k0 = k
    · subst hk
      simp [oget] at h
      simp [h]
    · simp [oget, hk] at h
      exact List.mem_cons_of_mem _ (ih h)

/-- One false element makes `List.all` false. -/
theorem all_false_of_mem {α : Type} {p : α → Bool} {l : List α} {x : α}
    (hx : x ∈ l) (hp : p x = false) : l.all p = false := by
  induction l with
  | nil => simp at hx
  | cons h t ih =>
    rcases List.mem_cons.mp hx with h1 | h1
    · subst h1
      simp [List.all_cons, hp]
    · simp [List.all_cons, ih h1]

/-! ## Format and pattern checkers (`ajv-formats` and the schema regexes) -/

namespace Fmt

def isDigitCh (c : Char) : Bool := '0' ≤ c && c ≤ '9'

def isLowerCh (c : Char) : Bool := 'a' ≤ c && c ≤ 'z'

def isHexCh (c : Char) : Bool :=
  isDigitCh c || ('a' ≤ c && c ≤ 'f') || ('A' ≤ c && c ≤ 'F')

def digitVal (c : Char) : Nat := c.toNat - '0'.toNat

/-- Consume exactly `n` hex digits. -/
def hexRun : Nat → List Char → Option (List Char)
  | 0, cs => some cs
  | n + 1, c :: cs => if isHexCh c then hexRun n cs else none
  | _ + 1, [] => none

def expectDash : List Char → Option (List Char)
  | '-' :: cs => some cs
  | _ => none

/-- Shape `[0-9a-f]{8}-([0-9a-f]{4}-){3}[0-9a-f]{12}` (already case-folded). -/
def uuidCore (cs : List Char) : Bool :=
  match hexRun 8 cs with
  | none => false
  | some cs => match expectDash cs with
    | none => false
    | some cs => match hexRun 4 cs with
      | none => false
      | some cs => match expectDash cs with
        | none => false
        | some cs => match hexRun 4 cs with
          | none => false
          | some cs => match expectDash cs with
            | none => false
            | some cs => match hexRun 4 cs with
              | none => false
              | some cs => match expectDash cs with
                | none => false
                | some cs => match hexRun 12 cs with
                  | some [] => true
                  | _ => false

/-- The `ajv-formats` `uuid` regex: `/^(?:urn:uuid:)?[0-9a-f]{8}-(?:[0-9a-f]{4}-){3}[0-9a-f]{12}$/i`. -/
def isUuid (s : String) : Bool :=
  match s.data.map Char.toLower with
  | 'u' :: 'r' :: 'n' :: ':' :: 'u' :: 'u' :: 'i' :: 'd' :: ':' :: rest => uuidCore rest
  | lowered => uuidCore lowered

def isLeap (y : Nat) : Bool := y % 4 == 0 && (y % 100 != 0 || y % 400 == 0)

def daysInMonth (y m : Nat) : Nat :=
  if m = 2 then (if isLeap y then 29 else 28)
  else if ([4, 6, 9, 11] : List Nat).contains m then 30
  else 31

/-- The `ajv-formats` `date` check on an exploded string: `^\d{4}-\d{2}-\d{2}$` with a
real month/day range check (leap years included). -/
def dateOkL : List Char → Bool
  | [y1, y2, y3, y4, '-', m1, m2, '-', d1, d2] =>
    isDigitCh y1 && isDigitCh y2 && isDigitCh y3 && isDigitCh y4 &&
    isDigitCh m1 && isDigitCh m2 && isDigitCh d1 && isDigitCh d2 &&
    (let y := ((digitVal y1 * 10 + digitVal y2) * 10 + digitVal y3) * 10 + digitVal y4
     let m := digitVal m1 * 10 + digitVal m2
     let d := digitVal d1 * 10 + digitVal d2
     1 ≤ m && m ≤ 12 && 1 ≤ d && d ≤ daysInMonth y m)
  | _ => false

def isDateFmt (s : String) : Bool := dateOkL s.data

/-- The schema regex `^[0-9]{4}-[0-9]{2}-[0-9]{2}$` (shape only, no range check). -/
def datePattern (s : String) : Bool :=
  match s.data with
  | [y1, y2, y3, y4, '-', m1, m2, '-', d1, d2] =>
    isDigitCh y1 && isDigitCh y2 && isDigitCh y3 && isDigitCh y4 &&
    isDigitCh m1 && isDigitCh m2 && isDigitCh d1 && isDigitCh d2
  | _ => false

/-- Optional fraction `(\.\d+)?`. -/
def dropFrac : List Char → Option (List Char)
  | '.' :: c :: cs =>
    if isDigitCh c then some ((c :: cs).dropWhile isDigitCh) else none
  | cs => some cs

/-- Timezone part `z|Z|[+-]\d\d(:?\d\d)?`. -/
def tzOk : List Char → Bool
  | ['z'] => true
  | ['Z'] => true
  | s :: h1 :: h2 :: rest =>
    (s = '+' || s = '-') && isDigitCh h1 && isDigitCh h2 &&
    (match rest with
     | [] => true
     | [m1, m2] => isDigitCh m1 && isDigitCh m2
     | [':', m1, m2] => isDigitCh m1 && isDigitCh m2
     | _ => false)
  | _ => false

/-- Time shape `hh:mm:ss(.frac)?` with a mandatory timezone (leap seconds not modelled). -/
def timeOk : List Char → Bool
  | h1 :: h2 :: ':' :: m1 :: m2 :: ':' :: s1 :: s2 :: rest =>
    isDigitCh h1 && isDigitCh h2 && isDigitCh m1 && isDigitCh m2 &&
    isDigitCh s1 && isDigitCh s2 &&
    digitVal h1 * 10 + digitVal h2 ≤ 23 &&
    digitVal m1 * 10 + digitVal m2 ≤ 59 &&
    digitVal s1 * 10 + digitVal s2 ≤ 59 &&
    (match dropFrac rest with
     | some tz => tzOk tz
     | none => false)
  | _ => false

/-- The `ajv-formats` `date-time` format: full-date, a `T`/`t`/space separator, full-time. -/
def isDateTimeFmt (s : String) : Bool :=
  match s.data with
  | c1 :: c2 :: c3 :: c4 :: c5 :: c6 :: c7 :: c8 :: c9 :: c10 :: sep :: rest =>
    dateOkL [c1, c2, c3, c4, c5, c6, c7, c8, c9, c10] &&
    (sep = 'T' || sep = 't' || sep = ' ') && timeOk rest
  | _ => false

/-- Pattern `^[a-z]{2}$` (ISO 639-1 language code pattern). -/
def isLang2 (s : String) : Bool :=
  match s.data with
  | [a, b] => isLowerCh a && isLowerCh b
  | _ => false

/-- Pattern `^[a-z0-9_]+$` (tag pattern of the v1.0.0 / v1.1.1 schema files). -/
def tagPat09 (s : String) : Bool :=
  s.data ≠ [] && s.data.all (fun c => isLowerCh c || isDigitCh c || c = '_')

/-- Pattern `^[a-z_]+$` (tag pattern of the v1.1.0 schema and the embedded
AI-documentation schema). -/
def tagPat (s : String) : Bool :=
  s.data ≠ [] && s.data.all (fun c => isLowerCh c || c = '_')

/-- Pattern `^x_` (the extension-field pattern of `patternProperties`). -/
def xPrefixed (s : String) : Bool :=
  match s.data with
  | 'x' :: '_' :: _ => true
  | _ => false

end Fmt

/-! ## `NALTValidator` (docs/AI_DOCUMENTATION.md §3.2)

`validate` compiles the embedded draft-07 schema with
`new Ajv({ allErrors: true })` + `ajv-formats`; if the schema pass fails it
returns those errors, otherwise it runs `customValidations` (cross-field
pass) and returns those, otherwise `{ valid: true }`. -/

namespace NALTValidator

/-- One ajv error (`instancePath` + failing keyword) or one custom error
(`path` + `message`). -/
structure VError where
  path : String
  message : String
deriving DecidableEq, Repr

/-- The result shape of `NALTValidator.validate`. -/
structure ValidationResult where
  valid : Bool
  errors : List VError
deriving DecidableEq, Repr

def entryTypes : List String := ["event", "reflection", "task", "idea", "log"]

def modeTypes : List String := ["morning", "afternoon", "evening", "night", "none"]

def contentFormats : List String :=
  ["text/plain", "text/markdown", "text/html", "application/json", "text/org"]

def relTypes : List String := ["caused_by", "led_to", "related_to", "explains", "contradicts"]

def algTypes : List String := ["EdDSA", "ES256", "RS256"]

def typeErr (p : String) : List VError := [⟨p, "type"⟩]

/-- Keyword `required`: one error per missing property, in schema order. -/
def reqErrs (p : String) (fs : List (String × JValue)) (ks : List String) : List VError :=
  ks.filterMap (fun k => if (oget fs k).isSome then none else some ⟨p, "required " ++ k⟩)

/-- A `properties` subschema only applies when the property is present. -/
def opt (fs : List (String × JValue)) (k : String) (f : JValue → List VError) : List VError :=
  match oget fs k with
  | some v => f v
  | none => []

/-- Schema `{"type": "string"}`. -/
def strCheck (p : String) : JValue → List VError
  | .str _ => []
  | _ => typeErr p

/-- Schema `{"type": "string", "pattern": ...}` (`pattern` only applies to strings). -/
def strPat (p : String) (pat : String → Bool) : JValue → List VError
  | .str s => if pat s then [] else [⟨p, "pattern"⟩]
  | _ => typeErr p

/-- Schema `{"type": "string", "format": ...}`. -/
def strFmt (p : String) (fmt : String → Bool) : JValue → List VError
  | .str s => if fmt s then [] else [⟨p, "format"⟩]
  | _ => typeErr p

/-- Schema `{"enum": [...]}` with no `type` keyword: a single `enum` error for any
value outside the list. -/
def strEnum (p : String) (es : List String) : JValue → List VError
  | .str s => if es.contains s then [] else [⟨p, "enum"⟩]
  | _ => [⟨p, "enum"⟩]

/-- Keyword `items` applied element-wise with ajv `instancePath` indices. -/
def idxErrs (p : String) (f : String → JValue → List VError) :
    Nat → List JValue → List VError
  | _, [] => []
  | i, x :: xs => f (p ++ "/" ++ Nat.repr i) x ++ idxErrs p f (i + 1) xs

/-- Mood `intensity`: `{"type": "number", "minimum": 0, "maximum": 1,
"multipleOf": 0.01}`; with `allErrors` every violated keyword reports. -/
def intensityErrs (p : String) : JValue → List VError
  | .num q =>
    (if JNum.le ⟨0, 0⟩ q then [] else [⟨p, "minimum"⟩]) ++
    (if JNum.le q ⟨1, 0⟩ then [] else [⟨p, "maximum"⟩]) ++
    (if q.isMultipleOf ⟨1, 2⟩ then [] else [⟨p, "multipleOf"⟩])
  | _ => typeErr p

def moodErrs (p : String) (m : JValue) : List VError :=
  match m with
  | .obj mfs =>
    reqErrs p mfs ["type", "intensity"] ++
    opt mfs "type" (strCheck (p ++ "/type")) ++
    opt mfs "intensity" (intensityErrs (p ++ "/intensity"))
  | _ => typeErr p

def tagsErrs (p : String) (v : JValue) : List VError :=
  match v with
  | .arr xs =>
    (if xs.length < 1 then [⟨p, "minItems"⟩] else []) ++
    (if 6 < xs.length then [⟨p, "maxItems"⟩] else []) ++
    idxErrs p (fun pi x => strPat pi Fmt.tagPat x) 0 xs
  | _ => typeErr p

/-- Schema `{"type": "array", "items": {"type": "string"}}`. -/
def strArrErrs (p : String) (v : JValue) : List VError :=
  match v with
  | .arr xs => idxErrs p (fun pi x => strCheck pi x) 0 xs
  | _ => typeErr p

/-- Field `entities`: every member (named or additional) must be an array of strings. -/
def entitiesErrs (p : String) (v : JValue) : List VError :=
  match v with
  | .obj efs => efs.flatMap (fun kv => strArrErrs (p ++ "/" ++ kv.1) kv.2)
  | _ => typeErr p

def relationErrs (p : String) (v : JValue) : List VError :=
  match v with
  | .obj rfs =>
    reqErrs p rfs ["type", "target_id"] ++
    opt rfs "type" (strEnum (p ++ "/type") relTypes) ++
    opt rfs "target_id" (strCheck (p ++ "/target_id"))
  | _ => typeErr p

def summaryErrs (p : String) : JValue → List VError
  | .str s => if s.length ≤ 140 then [] else [⟨p, "maxLength"⟩]
  | _ => typeErr p

def entryErrs (p : String) (e : JValue) : List VError :=
  match e with
  | .obj fs =>
    reqErrs p fs ["entry_id", "type", "mode", "content_format", "content"] ++
    opt fs "entry_id" (strCheck (p ++ "/entry_id")) ++
    opt fs "type" (strEnum (p ++ "/type") entryTypes) ++
    opt fs "mode" (strEnum (p ++ "/mode") modeTypes) ++
    opt fs "created_at" (strFmt (p ++ "/created_at") Fmt.isDateTimeFmt) ++
    opt fs "content_format" (strEnum (p ++ "/content_format") contentFormats) ++
    opt fs "content" (strCheck (p ++ "/content")) ++
    opt fs "summary" (summaryErrs (p ++ "/summary")) ++
    opt fs "moods" (fun v =>
      match v with
      | .arr ms => idxErrs (p ++ "/moods") moodErrs 0 ms
      | _ => typeErr (p ++ "/moods")) ++
    opt fs "tags" (tagsErrs (p ++ "/tags")) ++
    opt fs "entities" (entitiesErrs (p ++ "/entities")) ++
    opt fs "end_date" (strFmt (p ++ "/end_date") Fmt.isDateFmt) ++
    opt fs "x_relations" (fun v =>
      match v with
      | .arr rs => idxErrs (p ++ "/x_relations") relationErrs 0 rs
      | _ => typeErr (p ++ "/x_relations")) ++
    opt fs "x_due_date" (strFmt (p ++ "/x_due_date") Fmt.isDateFmt)
  | _ => typeErr p

def metaErrs (p : String) (v : JValue) : List VError :=
  match v with
  | .obj fs =>
    reqErrs p fs ["language", "timezone"] ++
    opt fs "language" (strPat (p ++ "/language") Fmt.isLang2) ++
    opt fs "timezone" (strCheck (p ++ "/timezone"))
  | _ => typeErr p

def signatureErrs (p : String) (v : JValue) : List VError :=
  match v with
  | .obj fs =>
    reqErrs p fs ["alg", "sig", "public_key"] ++
    opt fs "alg" (strEnum (p ++ "/alg") algTypes) ++
    opt fs "sig" (strCheck (p ++ "/sig")) ++
    opt fs "public_key" (strCheck (p ++ "/public_key"))
  | _ => typeErr p

def entriesErrs (v : JValue) : List VError :=
  match v with
  | .arr es =>
    (if es.length < 1 then [⟨"/entries", "minItems"⟩] else []) ++
    idxErrs "/entries" entryErrs 0 es
  | _ => typeErr "/entries"

/-- The full ajv pass over the schema embedded in the documentation's
`NALTValidator.loadSchema` (spec pattern `^nalt-protocol/1\.1\.1$`). -/
def schemaErrors (doc : JValue) : List VError :=
  match doc with
  | .obj fs =>
    reqErrs "" fs ["spec_version", "document_id", "date", "meta", "entries"] ++
    opt fs "spec_version" (strPat "/spec_version" (fun s => s = "nalt-protocol/1.1.1")) ++
    opt fs "document_id" (strFmt "/document_id" Fmt.isUuid) ++
    opt fs "date" (strFmt "/date" Fmt.isDateFmt) ++
    opt fs "meta" (metaErrs "/meta") ++
    opt fs "entries" entriesErrs ++
    opt fs "signature" (signatureErrs "/signature")
  | _ => typeErr ""

/-- JS template interpolation of an id; ids are strings in schema-valid
documents (numeric coercion is not modelled). -/
def tplStr : Option JValue → String
  | some (.str s) => s
  | _ => ""

/-- The `customValidations` pass: the `end_date`/`date` comparison and the
`x_relations[].target_id` resolution check (pushing one error per dangling
reference, with the path built from the entry's `entry_id`). -/
def customValidations (doc : JValue) : List VError :=
  (match jget doc "end_date" with
   | some (.str e) =>
     if e ≠ "" then
       match jget doc "date" with
       | some (.str d) =>
         if e < d then [⟨"/end_date", "end_date must be after or equal to date"⟩] else []
       | _ => []
     else []
   | _ => []) ++
  (match jget doc "entries" with
   | some (.arr es) =>
     let ids := es.map (fun x => jget x "entry_id")
     es.flatMap (fun e =>
       match jget e "x_relations" with
       | some (.arr rs) =>
         rs.filterMap (fun rel =>
           if ids.contains (jget rel "target_id") then none
           else some ⟨"/entries/" ++ tplStr (jget e "entry_id") ++ "/x_relations",
                      "Invalid target_id reference: " ++ tplStr (jget rel "target_id")⟩)
       | _ => [])
   | _ => [])

/-- Method `NALTValidator.validate`: schema errors if any, else custom errors if
any, else `{ valid: true }`. -/
def validate (doc : JValue) : ValidationResult :=
  let errs := schemaErrors doc
  if errs.isEmpty then
    let cust := customValidations doc
    if cust.isEmpty then ⟨true, []⟩ else ⟨false, cust⟩
  else ⟨false, errs⟩

end NALTValidator

/-! ## Shared JSON-Schema combinators for the per-version schema files -/

def jIsStr : JValue → Bool
  | .str _ => true
  | _ => false

/-- Schema `{"type": "string"}` plus an extra string-level keyword. -/
def jStrWith (f : String → Bool) : JValue → Bool
  | .str s => f s
  | _ => false

/-- A `properties` subschema holds vacuously when the property is absent. -/
def jOpt (fs : List (String × JValue)) (k : String) (p : JValue → Bool) : Bool :=
  match oget fs k with
  | some v => p v
  | none => true

/-- Keyword `required` membership. -/
def jHas (fs : List (String × JValue)) (k : String) : Bool := (oget fs k).isSome

/-- Schema `{"type": "array", "items": {"type": "string"}}`. -/
def jStrArr : JValue → Bool
  | .arr xs => xs.all jIsStr
  | _ => false

/-! ## `schema/v1.1.1/schema.json`, first document: the v1.1.1 schema -/

namespace SchemaV111

def moodTypes : List String :=
  ["happy", "excited", "peaceful", "content", "grateful", "calm", "hopeful", "proud",
   "motivated", "sad", "angry", "anxious", "frustrated", "tired", "confused", "lonely",
   "neutral", "curious", "nostalgic", "surprised"]

def moodOk : JValue → Bool
  | .obj fs =>
    jHas fs "type" && jHas fs "intensity" &&
    jOpt fs "type" (jStrWith moodTypes.contains) &&
    jOpt fs "intensity" (fun v =>
      match v with
      | .num q => JNum.le ⟨0, 0⟩ q && JNum.le q ⟨1, 0⟩ && q.isMultipleOf ⟨1, 2⟩
      | _ => false)
  | _ => false

/-- The `entitiesObject`: the five named categories and every additional member
must be arrays of strings. -/
def entitiesOk : JValue → Bool
  | .obj fs => fs.all (fun kv => jStrArr kv.2)
  | _ => false

def relationOk : JValue → Bool
  | .obj fs =>
    jHas fs "type" && jHas fs "target_id" &&
    jOpt fs "type" (jStrWith NALTValidator.relTypes.contains) &&
    jOpt fs "target_id" jIsStr
  | _ => false

def entryOk : JValue → Bool
  | .obj fs =>
    jHas fs "entry_id" && jHas fs "type" && jHas fs "mode" &&
    jHas fs "content_format" && jHas fs "content" &&
    jOpt fs "entry_id" jIsStr &&
    jOpt fs "type" (jStrWith NALTValidator.entryTypes.contains) &&
    jOpt fs "mode" (jStrWith NALTValidator.modeTypes.contains) &&
    jOpt fs "content_format" (jStrWith NALTValidator.contentFormats.contains) &&
    jOpt fs "content" jIsStr &&
    jOpt fs "end_date" (jStrWith (fun s => Fmt.isDateFmt s && Fmt.datePattern s)) &&
    jOpt fs "summary" (jStrWith (fun s => s.length ≤ 140)) &&
    jOpt fs "moods" (fun v =>
      match v with
      | .arr ms => ms.all moodOk
      | _ => false) &&
    jOpt fs "tags" (fun v =>
      match v with
      | .arr xs => 1 ≤ xs.length && xs.length ≤ 6 && xs.all (jStrWith Fmt.tagPat09)
      | _ => false) &&
    jOpt fs "entities" entitiesOk &&
    jOpt fs "created_at" (jStrWith Fmt.isDateTimeFmt) &&
    jOpt fs "x_due_date" (jStrWith Fmt.isDateFmt) &&
    jOpt fs "x_relations" (fun v =>
      match v with
      | .arr rs => rs.all relationOk
      | _ => false)
  | _ => false

def metaOk : JValue → Bool
  | .obj fs =>
    jHas fs "language" && jHas fs "timezone" &&
    jOpt fs "language" (jStrWith Fmt.isLang2) &&
    jOpt fs "timezone" jIsStr &&
    jOpt fs "x_utc_offset_minutes" (fun v =>
      match v with
      | .num q => q.isInt
      | _ => false)
  | _ => false

def signatureOk : JValue → Bool
  | .obj fs =>
    jHas fs "alg" && jHas fs "sig" && jHas fs "public_key" &&
    jOpt fs "alg" (jStrWith NALTValidator.algTypes.contains) &&
    jOpt fs "sig" jIsStr &&
    jOpt fs "public_key" jIsStr
  | _ => false

/-- Whole-document validity against the v1.1.1 schema file
(`additionalProperties` is `true` at every object). -/
def validDoc : JValue → Bool
  | .obj fs =>
    jHas fs "spec_version" && jHas fs "document_id" && jHas fs "date" &&
    jHas fs "meta" && jHas fs "entries" &&
    jOpt fs "spec_version" (jStrWith (fun s => s = "nalt-protocol/1.1.1")) &&
    jOpt fs "document_id" (jStrWith Fmt.isUuid) &&
    jOpt fs "date" (jStrWith (fun s => Fmt.isDateFmt s && Fmt.datePattern s)) &&
    jOpt fs "meta" metaOk &&
    jOpt fs "entries" (fun v =>
      match v with
      | .arr es => 1 ≤ es.length && es.all entryOk
      | _ => false) &&
    jOpt fs "signature" signatureOk
  | _ => false

end SchemaV111

/-! ## `schema/v1.1.1/schema.json`, second document: the v1.0.0 schema -/

namespace SchemaV100

def moodTypes : List String :=
  ["happy", "excited", "peaceful", "content", "grateful", "sad", "angry", "anxious",
   "frustrated", "tired", "confused", "lonely", "calm", "neutral", "curious",
   "nostalgic", "surprised", "hopeful", "proud", "motivated"]

/-- v1.0.0 `moodObject`: `[0,1]` range only, no `multipleOf`. -/
def moodOk : JValue → Bool
  | .obj fs =>
    jHas fs "type" && jHas fs "intensity" &&
    jOpt fs "type" (jStrWith moodTypes.contains) &&
    jOpt fs "intensity" (fun v =>
      match v with
      | .num q => JNum.le ⟨0, 0⟩ q && JNum.le q ⟨1, 0⟩
      | _ => false)
  | _ => false

/-- v1.0.0 `entitiesObject`: five named array-of-string categories, no
`additionalProperties` keyword (so unknown members are unconstrained). -/
def entitiesOk : JValue → Bool
  | .obj fs =>
    jOpt fs "people" jStrArr && jOpt fs "locations" jStrArr &&
    jOpt fs "organizations" jStrArr && jOpt fs "products" jStrArr &&
    jOpt fs "media" jStrArr
  | _ => false

def relationOk : JValue → Bool
  | .obj fs =>
    jHas fs "type" && jHas fs "target_id" &&
    jOpt fs "type" (jStrWith NALTValidator.relTypes.contains) &&
    jOpt fs "target_id" jIsStr
  | _ => false

/-- The property names of the v1.0.0 `entryObject`. -/
def entryPropNames : List String :=
  ["entry_id", "type", "mode", "content_format", "content", "summary", "moods",
   "tags", "entities", "x_due_date", "x_relations"]

/-- v1.0.0 `entryObject` with `"additionalProperties": false`: every member
must be a named property or match `patternProperties` `^x_`. -/
def entryOk : JValue → Bool
  | .obj fs =>
    jHas fs "entry_id" && jHas fs "type" && jHas fs "mode" &&
    jHas fs "content_format" && jHas fs "content" &&
    jOpt fs "entry_id" jIsStr &&
    jOpt fs "type" (jStrWith NALTValidator.entryTypes.contains) &&
    jOpt fs "mode" (jStrWith NALTValidator.modeTypes.contains) &&
    jOpt fs "content_format" jIsStr &&
    jOpt fs "content" jIsStr &&
    jOpt fs "summary" (jStrWith (fun s => s.length ≤ 140)) &&
    jOpt fs "moods" (fun v =>
      match v with
      | .arr ms => ms.all moodOk
      | _ => false) &&
    jOpt fs "tags" (fun v =>
      match v with
      | .arr xs => 1 ≤ xs.length && xs.length ≤ 6 && xs.all (jStrWith Fmt.tagPat09)
      | _ => false) &&
    jOpt fs "entities" entitiesOk &&
    jOpt fs "x_due_date" (jStrWith Fmt.isDateFmt) &&
    jOpt fs "x_relations" (fun v =>
      match v with
      | .arr rs => rs.all relationOk
      | _ => false) &&
    fs.all (fun kv => entryPropNames.contains kv.1 || Fmt.xPrefixed kv.1)
  | _ => false

/-- The property names of the v1.0.0 `metaObject`. -/
def metaPropNames : List String := ["language", "timezone"]

/-- v1.0.0 `metaObject` with `"additionalProperties": false`. -/
def metaOk : JValue → Bool
  | .obj fs =>
    jHas fs "language" && jHas fs "timezone" &&
    jOpt fs "language" (jStrWith Fmt.isLang2) &&
    jOpt fs "timezone" jIsStr &&
    fs.all (fun kv => metaPropNames.contains kv.1 || Fmt.xPrefixed kv.1)
  | _ => false

/-- Whole-document validity against the v1.0.0 schema (`document_id` is
optional; the document level itself keeps `additionalProperties: true`). -/
def validDoc : JValue → Bool
  | .obj fs =>
    jHas fs "spec_version" && jHas fs "date" && jHas fs "meta" && jHas fs "entries" &&
    jOpt fs "spec_version" (jStrWith (fun s => s = "nalt-protocol/1.0.0")) &&
    jOpt fs "document_id" (jStrWith Fmt.isUuid) &&
    jOpt fs "date" (jStrWith (fun s => Fmt.isDateFmt s && Fmt.datePattern s)) &&
    jOpt fs "meta" metaOk &&
    jOpt fs "entries" (fun v =>
      match v with
      | .arr es => 1 ≤ es.length && es.all entryOk
      | _ => false)
  | _ => false

end SchemaV100

/-! ## The v1.1.0 schema (embedded in the v1.1.0 AI documentation) -/

namespace SchemaV110

/-- v1.1.0 mood: free-form `type` string, `[0,1]` range, `multipleOf: 0.01`. -/
def moodOk : JValue → Bool
  | .obj fs =>
    jHas fs "type" && jHas fs "intensity" &&
    jOpt fs "type" jIsStr &&
    jOpt fs "intensity" (fun v =>
      match v with
      | .num q => JNum.le ⟨0, 0⟩ q && JNum.le q ⟨1, 0⟩ && q.isMultipleOf ⟨1, 2⟩
      | _ => false)
  | _ => false

/-- v1.1.0 `entities`: three named categories and `additionalProperties`
both demand arrays of strings. -/
def entitiesOk : JValue → Bool
  | .obj fs => fs.all (fun kv => jStrArr kv.2)
  | _ => false

def relationOk : JValue → Bool
  | .obj fs =>
    jHas fs "type" && jHas fs "target_id" &&
    jOpt fs "type" (jStrWith NALTValidator.relTypes.contains) &&
    jOpt fs "target_id" jIsStr
  | _ => false

def entryOk : JValue → Bool
  | .obj fs =>
    jHas fs "entry_id" && jHas fs "type" && jHas fs "mode" &&
    jHas fs "content_format" && jHas fs "content" &&
    jOpt fs "entry_id" jIsStr &&
    jOpt fs "type" (jStrWith NALTValidator.entryTypes.contains) &&
    jOpt fs "mode" (jStrWith NALTValidator.modeTypes.contains) &&
    jOpt fs "content_format" (jStrWith NALTValidator.contentFormats.contains) &&
    jOpt fs "content" jIsStr &&
    jOpt fs "summary" (jStrWith (fun s => s.length ≤ 140)) &&
    jOpt fs "moods" (fun v =>
      match v with
      | .arr ms => ms.all moodOk
      | _ => false) &&
    jOpt fs "tags" (fun v =>
      match v with
      | .arr xs => 1 ≤ xs.length && xs.length ≤ 6 && xs.all (jStrWith Fmt.tagPat)
      | _ => false) &&
    jOpt fs "entities" entitiesOk &&
    jOpt fs "end_date" (jStrWith Fmt.isDateFmt) &&
    jOpt fs "x_relations" (fun v =>
      match v with
      | .arr rs => rs.all relationOk
      | _ => false) &&
    jOpt fs "x_due_date" (jStrWith Fmt.isDateFmt)
  | _ => false

def metaOk : JValue → Bool
  | .obj fs =>
    jHas fs "language" && jHas fs "timezone" &&
    jOpt fs "language" (jStrWith Fmt.isLang2) &&
    jOpt fs "timezone" jIsStr &&
    jOpt fs "x_utc_offset_minutes" (fun v =>
      match v with
      | .num q => q.isInt && JNum.le ⟨-720, 0⟩ q && JNum.le q ⟨840, 0⟩
      | _ => false)
  | _ => false

def signatureOk : JValue → Bool
  | .obj fs =>
    jHas fs "alg" && jHas fs "sig" && jHas fs "public_key" &&
    jOpt fs "alg" (jStrWith NALTValidator.algTypes.contains) &&
    jOpt fs "sig" jIsStr &&
    jOpt fs "public_key" jIsStr
  | _ => false

/-- Whole-document validity against the v1.1.0 schema (entry and meta objects
have `additionalProperties: true`). -/
def validDoc : JValue → Bool
  | .obj fs =>
    jHas fs "spec_version" && jHas fs "document_id" && jHas fs "date" &&
    jHas fs "meta" && jHas fs "entries" &&
    jOpt fs "spec_version" (jStrWith (fun s => s = "nalt-protocol/1.1.0")) &&
    jOpt fs "document_id" (jStrWith Fmt.isUuid) &&
    jOpt fs "date" (jStrWith Fmt.isDateFmt) &&
    jOpt fs "timestamp" (jStrWith Fmt.isDateTimeFmt) &&
    jOpt fs "meta" metaOk &&
    jOpt fs "entries" (fun v =>
      match v with
      | .arr es => 1 ≤ es.length && es.all entryOk
      | _ => false) &&
    jOpt fs "signature" signatureOk
  | _ => false

end SchemaV110

/-! ## The v1.2.0 (slim-core) schema file -/

namespace SchemaV120

/-- v1.2.0 entry: only the five core fields remain in the schema; everything
else is an accepted additional property. -/
def entryOk : JValue → Bool
  | .obj fs =>
    jHas fs "entry_id" && jHas fs "type" && jHas fs "mode" &&
    jHas fs "content_format" && jHas fs "content" &&
    jOpt fs "entry_id" jIsStr &&
    jOpt fs "type" (jStrWith NALTValidator.entryTypes.contains) &&
    jOpt fs "mode" (jStrWith NALTValidator.modeTypes.contains) &&
    jOpt fs "content_format" (jStrWith NALTValidator.contentFormats.contains) &&
    jOpt fs "content" jIsStr
  | _ => false

def metaOk : JValue → Bool
  | .obj fs =>
    jHas fs "language" && jHas fs "timezone" &&
    jOpt fs "language" (jStrWith Fmt.isLang2) &&
    jOpt fs "timezone" jIsStr
  | _ => false

/-- Whole-document validity against the v1.2.0 schema file. -/
def validDoc : JValue → Bool
  | .obj fs =>
    jHas fs "spec_version" && jHas fs "document_id" && jHas fs "date" &&
    jHas fs "meta" && jHas fs "entries" &&
    jOpt fs "spec_version" (jStrWith (fun s => s = "nalt-protocol/1.2.0")) &&
    jOpt fs "document_id" (jStrWith Fmt.isUuid) &&
    jOpt fs "date" (jStrWith (fun s => Fmt.isDateFmt s && Fmt.datePattern s)) &&
    jOpt fs "meta" metaOk &&
    jOpt fs "entries" (fun v =>
      match v with
      | .arr es => 1 ≤ es.length && es.all entryOk
      | _ => false)
  | _ => false

end SchemaV120

/-! ## `NALTMigrator` (docs/AI_DOCUMENTATION.md §7.1)

`migrate` hardwires `targetVersion = '1.1.1'`, extracts the source version
with `/(\d+\.\d+\.\d+)/`, and folds the per-version migrators over
`getMigrationPath` (`versions.slice(fromIndex + 1, toIndex + 1)`). -/

namespace NALTMigrator

/-- The result shape of `NALTMigrator.migrate`. -/
structure MigrationResult where
  document : JValue
  migrated : Bool
deriving Repr

/-- Greedy maximal digit run (regex `\d+`). -/
def takeDigits : List Char → List Char × List Char
  | [] => ([], [])
  | c :: cs =>
    if Fmt.isDigitCh c then
      let r := takeDigits cs
      (c :: r.1, r.2)
    else ([], c :: cs)

/-- Match `\d+\.\d+\.\d+` at the current position. -/
def semverAt (cs : List Char) : Option String :=
  match takeDigits cs with
  | ([], _) => none
  | (d1, rest) =>
    match rest with
    | '.' :: rest2 =>
      match takeDigits rest2 with
      | ([], _) => none
      | (d2, rest3) =>
        match rest3 with
        | '.' :: rest4 =>
          match takeDigits rest4 with
          | ([], _) => none
          | (d3, _) => some ⟨d1 ++ '.' :: d2 ++ '.' :: d3⟩
        | _ => none
    | _ => none

/-- Leftmost match, like `String.prototype.match`. -/
def scanSemver : List Char → Option String
  | [] => none
  | c :: cs =>
    match semverAt (c :: cs) with
    | some v => some v
    | none => scanSemver cs

/-- Method `extractVersion`: first `\d+\.\d+\.\d+` substring, else `null`. -/
def extractVersion (specVersion : String) : Option String :=
  scanSemver specVersion.data

def targetVersion : String := "1.1.1"

def versions : List String := ["1.0.0", "1.1.0", "1.1.1", "1.2.0"]

def jsIndexOfAux : List String → String → Int → Int
  | [], _, _ => -1
  | h :: t, s, i => if h = s then i else jsIndexOfAux t s (i + 1)

/-- JS `Array.prototype.indexOf` (with `indexOf(null) = -1`). -/
def jsIndexOf (l : List String) : Option String → Int
  | none => -1
  | some s => jsIndexOfAux l s 0

/-- Method `getMigrationPath`: `versions.slice(fromIndex + 1, toIndex + 1)`, or `[]`
when either index is `-1` or `fromIndex >= toIndex`. -/
def getMigrationPath (fromV : Option String) (toV : String) : List String :=
  let fromIndex := jsIndexOf versions fromV
  let toIndex := jsIndexOf versions (some toV)
  if fromIndex = -1 || toIndex = -1 || toIndex ≤ fromIndex then []
  else (versions.drop (fromIndex.toNat + 1)).take (toIndex.toNat - fromIndex.toNat)

/-- Lowercase hex digit, as JS `v.toString(16)` renders a nibble. -/
def hexDigit (n : Nat) : Char :=
  if n < 10 then Char.ofNat (48 + n) else Char.ofNat (87 + n)

def uuidTemplate : List Char := "xxxxxxxx-xxxx-4xxx-yxxx-xxxxxxxxxxxx".data

/-- Character `'y'` is replaced by `(r & 0x3 | 0x8).toString(16)`; since `r & 3 < 4`,
the bitwise-or is `+ 8`. -/
def genUUIDAux (r : Nat → Nat) : Nat → List Char → List Char
  | _, [] => []
  | i, c :: cs =>
    if c = 'x' then hexDigit (r i % 16) :: genUUIDAux r (i + 1) cs
    else if c = 'y' then hexDigit (r i % 16 % 4 + 8) :: genUUIDAux r (i + 1) cs
    else c :: genUUIDAux r i cs

/-- Method `generateUUID`, with `Math.random()*16|0` draws supplied by `r`. -/
def generateUUID (r : Nat → Nat) : String := ⟨genUUIDAux r 0 uuidTemplate⟩

/-- The `formatMap` lookup table of `migrateFrom_1_0_0`. -/
def formatMap : String → Option String
  | "plain_text" => some "text/plain"
  | "markdown" => some "text/markdown"
  | "md" => some "text/markdown"
  | "html" => some "text/html"
  | "json" => some "application/json"
  | "org" => some "text/org"
  | _ => none

def validTypes : List String :=
  ["text/plain", "text/markdown", "text/html", "application/json", "text/org"]

def isValidMimeType (format : String) : Bool := validTypes.contains format

/-- JS `{...mood, intensity: Math.round(mood.intensity * 100) / 100}`.  A
missing or non-numeric intensity yields `NaN` in JS, modelled as `null`;
spreading a primitive mood is not modelled beyond the written field. -/
def roundMood (m : JValue) : JValue :=
  match m with
  | .obj mfs =>
    .obj (oset mfs "intensity"
      (match oget mfs "intensity" with
       | some (.num q) => .num q.round2
       | _ => .null))
  | _ => .obj [("intensity", .null)]

/-- The `content_format` normalization of `migrateFrom_1_0_0`: mapped legacy
values are rewritten, unknown non-MIME values fall back to `text/plain`. -/
def updEntryFormat (efs : List (String × JValue)) : List (String × JValue) :=
  match oget efs "content_format" with
  | some (.str s) =>
    match formatMap s with
    | some t => oset efs "content_format" (.str t)
    | none => if isValidMimeType s then efs else oset efs "content_format" (.str "text/plain")
  | _ => oset efs "content_format" (.str "text/plain")

/-- Per-entry body of the v1.2.0 documentation's `migrateFrom_1_0_0`
(format normalization plus `x_moods` rounding; `.map` on a truthy non-array
throws). -/
def migEntryFrom_1_0_0 (e : JValue) : Option JValue :=
  match e with
  | .obj efs0 =>
    let efs := updEntryFormat efs0
    match oget efs "x_moods" with
    | some (.arr ms) => some (.obj (oset efs "x_moods" (.arr (ms.map roundMood))))
    | some v => if jsTruthy (some v) then none else some (.obj efs)
    | none => some (.obj efs)
  | _ => some (.obj [("content_format", .str "text/plain")])

/-- The tail of `migrateFrom_1_0_0` after the scalar-field fixups: map the
entries (`.map` on a missing or non-array `entries` throws) and attach the
`x_migration` stamp. -/
def migTailFrom_1_0_0 (fs : List (String × JValue)) (now : String) : Option JValue :=
  match oget fs "entries" with
  | some (.arr es) =>
    (es.mapM migEntryFrom_1_0_0).map (fun es2 =>
      .obj (oset (oset fs "entries" (.arr es2)) "x_migration"
        (.obj [("from_version", .str "1.0.0"), ("to_version", .str "1.2.0"),
               ("migrated_at", .str now)])))
  | _ => none

/-- Method `migrateFrom_1_0_0` of the v1.2.0 documentation: jumps straight to
`spec_version` 1.2.0, generates `document_id`/`timestamp` when falsy, maps
the entries, and stamps `x_migration` (1.0.0 → 1.2.0). -/
def migrateFrom_1_0_0 (doc : JValue) (now : String) (r : Nat → Nat) : Option JValue :=
  match doc with
  | .obj fs0 =>
    let fs := oset fs0 "spec_version" (.str "nalt-protocol/1.2.0")
    let fs := if jsTruthy (oget fs "document_id") then fs
              else oset fs "document_id" (.str (generateUUID r))
    let fs := if jsTruthy (oget fs "timestamp") then fs else oset fs "timestamp" (.str now)
    migTailFrom_1_0_0 fs now
  | _ => none

/-- JS `{...entry, created_at: timestamp}` guarded by `!entry.created_at`. -/
def addCreatedAt (ts : JValue) (e : JValue) : JValue :=
  match e with
  | .obj efs => if jsTruthy (oget efs "created_at") then e else .obj (oset efs "created_at" ts)
  | _ => .obj [("created_at", ts)]

/-- Step `migrateFrom_1_1_0_to_1_1_1`: drop the top-level `timestamp`, set
`spec_version`, and copy the timestamp into each entry lacking `created_at`. -/
def migrateFrom_1_1_0_to_1_1_1 (doc : JValue) : Option JValue :=
  match doc with
  | .obj fs0 =>
    let ts := oget fs0 "timestamp"
    let fs := oset (odel fs0 "timestamp") "spec_version" (.str "nalt-protocol/1.1.1")
    match ts with
    | some tsv =>
      if jsTruthy (some tsv) then
        match oget fs "entries" with
        | some (.arr es) => some (.obj (oset fs "entries" (.arr (es.map (addCreatedAt tsv)))))
        | some v => if jsTruthy (some v) then none else some (.obj fs)
        | none => some (.obj fs)
      else some (.obj fs)
    | none => some (.obj fs)
  | _ => none

/-- The `fieldMappings` table of `migrateFrom_1_1_1`. -/
def fieldMappings : List (String × String) :=
  [("summary", "x_summary"), ("moods", "x_moods"), ("tags", "x_tags"),
   ("entities", "x_entities"), ("end_date", "x_end_date"), ("created_at", "x_created_at")]

/-- JS `newEntry[newField] = newEntry[oldField]; delete newEntry[oldField]`,
guarded by `newEntry[oldField] !== undefined`. -/
def jsMoveField (l : List (String × JValue)) (oldF newF : String) : List (String × JValue) :=
  match oget l oldF with
  | some v => odel (oset l newF v) oldF
  | none => l

/-- Per-entry body of `migrateFrom_1_1_1`: fold the relocation table. -/
def migEntryFrom_1_1_1 (e : JValue) : JValue :=
  match e with
  | .obj efs => .obj (fieldMappings.foldl (fun acc kv => jsMoveField acc kv.1 kv.2) efs)
  | _ => .obj []

/-- Step `migrateFrom_1_1_1`: set `spec_version` to 1.2.0, move `signature` to
`x_signature`, hoist `meta.x_utc_offset_minutes` to the document level,
relocate the six entry fields, and stamp `x_migration`. -/
def migrateFrom_1_1_1 (doc : JValue) (now : String) : Option JValue :=
  match doc with
  | .obj fs0 =>
    let fs := oset fs0 "spec_version" (.str "nalt-protocol/1.2.0")
    let fs := match oget fs "signature" with
      | some v => if jsTruthy (some v) then odel (oset fs "x_signature" v) "signature" else fs
      | none => fs
    let fs := match oget fs "meta" with
      | some (.obj m) =>
        match oget m "x_utc_offset_minutes" with
        | some v =>
          oset (oset fs "x_utc_offset_minutes" v) "meta" (.obj (odel m "x_utc_offset_minutes"))
        | none => fs
      | _ => fs
    match oget fs "entries" with
    | some (.arr es) =>
      some (.obj (oset (oset fs "entries" (.arr (es.map migEntryFrom_1_1_1))) "x_migration"
        (.obj [("from_version", .str "1.1.1"), ("to_version", .str "1.2.0"),
               ("migrated_at", .str now)])))
    | _ => none
  | _ => none

/-- Step `migrateFrom_1_1_0`: first to 1.1.1, then to 1.2.0. -/
def migrateFrom_1_1_0 (doc : JValue) (now : String) : Option JValue :=
  (migrateFrom_1_1_0_to_1_1_1 doc).bind (fun d => migrateFrom_1_1_1 d now)

/-- Method `NALTMigrator.migrate`: no-op when the extracted version equals the
hardwired target `'1.1.1'`; otherwise fold the migrators keyed by the path
versions (the `'1.2.0'` entry of the migrations map is `null`, so it is
skipped).  A non-string `spec_version` makes `.match` throw. -/
def migrate (doc : JValue) (now : String) (r : Nat → Nat) : Option MigrationResult :=
  match jget doc "spec_version" with
  | some (.str sv) =>
    let currentVersion := extractVersion sv
    if currentVersion = some targetVersion then some ⟨doc, false⟩
    else
      (((getMigrationPath currentVersion targetVersion).foldlM (fun d v =>
        match v with
        | "1.0.0" => migrateFrom_1_0_0 d now r
        | "1.1.0" => migrateFrom_1_1_0 d now
        | "1.1.1" => migrateFrom_1_1_1 d now
        | _ => some d) doc)).map (fun d => ⟨d, true⟩)
  | _ => none

end NALTMigrator

/-! ## `NALTMigrator` of the v1.1.0 documentation: the 1.0.0→1.1.0 step

Identical per-entry normalization (its `formatMap`, `isValidMimeType`,
`generateUUID` and mood rounding are the same code, shared here), but it
targets `spec_version` 1.1.0, rounds `moods` (not `x_moods`), computes
`meta.x_utc_offset_minutes` via `calculateUTCOffset`, and stamps
`x_migration` (1.0.0 → 1.1.0). -/

namespace NALTMigratorV110

/-- Per-entry body: `content_format` normalization plus `moods` rounding. -/
def migEntryFrom_1_0_0 (e : JValue) : Option JValue :=
  match e with
  | .obj efs0 =>
    let efs := NALTMigrator.updEntryFormat efs0
    match oget efs "moods" with
    | some (.arr ms) => some (.obj (oset efs "moods" (.arr (ms.map NALTMigrator.roundMood))))
    | some v => if jsTruthy (some v) then none else some (.obj efs)
    | none => some (.obj efs)
  | _ => some (.obj [("content_format", .str "text/plain")])

/-- Method `migrateFrom_1_0_0` of the v1.1.0 documentation.  `calculateUTCOffset`
(JS `Date` plus `toLocaleString` over the host's timezone database, `null` on
failure) is the oracle parameter `tzOffset`. -/
def migrateFrom_1_0_0 (doc : JValue) (now : String) (r : Nat → Nat)
    (tzOffset : Option JValue → Option JValue → Option JNum) : Option JValue :=
  match doc with
  | .obj fs0 =>
    let fs := oset fs0 "spec_version" (.str "nalt-protocol/1.1.0")
    let fs := if jsTruthy (oget fs "document_id") then fs
              else oset fs "document_id" (.str (NALTMigrator.generateUUID r))
    let fs := if jsTruthy (oget fs "timestamp") then fs else oset fs "timestamp" (.str now)
    match oget fs "entries" with
    | some (.arr es) =>
      (es.mapM migEntryFrom_1_0_0).map (fun es2 =>
        let fs := oset fs "entries" (.arr es2)
        let fs := match oget fs "meta" with
          | some (.obj m) =>
            if jsTruthy (oget m "timezone") then
              match tzOffset (oget fs "date") (oget m "timezone") with
              | some off => oset fs "meta" (.obj (oset m "x_utc_offset_minutes" (.num off)))
              | none => fs
            else fs
          | _ => fs
        .obj (oset fs "x_migration"
          (.obj [("from_version", .str "1.0.0"), ("to_version", .str "1.1.0"),
                 ("migrated_at", .str now)])))
    | _ => none
  | _ => none

end NALTMigratorV110

/-! ## The Python v1.1.1→v1.2.0 migration script
(`migrate_document` / `migrate_entry`, §11.1 of docs/AI_DOCUMENTATION.md) -/

namespace PyMigrate

/-- The `field_mappings` dict (Python dicts preserve insertion order). -/
def field_mappings : List (String × String) :=
  [("summary", "x_summary"), ("moods", "x_moods"), ("tags", "x_tags"),
   ("entities", "x_entities"), ("end_date", "x_end_date"), ("created_at", "x_created_at")]

/-- Python `new_entry[new_field] = new_entry.pop(old_field)` guarded by
`old_field in new_entry`. -/
def moveField (l : List (String × JValue)) (oldF newF : String) : List (String × JValue) :=
  match oget l oldF with
  | some v => oset (odel l oldF) newF v
  | none => l

/-- The relocation fold of `migrate_entry` over `field_mappings`. -/
def migrate_entryFields (efs : List (String × JValue)) : List (String × JValue) :=
  field_mappings.foldl (fun acc kv => moveField acc kv.1 kv.2) efs

/-- Python `migrate_entry` (`entry.copy()` raises on a non-dict). -/
def migrate_entry : JValue → Option JValue
  | .obj efs => some (.obj (migrate_entryFields efs))
  | _ => none

/-- Python `migrate_document`: move `signature` to `x_signature`, hoist
`meta.x_utc_offset_minutes`, migrate each entry, set `spec_version`, and
attach `x_migrated_at` = `datetime.utcnow().isoformat() + 'Z'` (the
isoformat text is the parameter `ts`). -/
def migrate_document (doc : JValue) (ts : String) : Option JValue :=
  match doc with
  | .obj fs0 =>
    let fs := match oget fs0 "signature" with
      | some v => oset (odel fs0 "signature") "x_signature" v
      | none => fs0
    let fs := match oget fs "meta" with
      | some (.obj m) =>
        match oget m "x_utc_offset_minutes" with
        | some v =>
          oset (oset fs "meta" (.obj (odel m "x_utc_offset_minutes"))) "x_utc_offset_minutes" v
        | none => fs
      | _ => fs
    match oget fs "entries" with
    | some (.arr es) =>
      (es.mapM migrate_entry).map (fun es2 =>
        .obj (oset (oset (oset fs "entries" (.arr es2)) "spec_version"
          (.str "nalt-protocol/1.2.0")) "x_migrated_at" (.str (ts ++ "Z"))))
    | none =>
      some (.obj (oset (oset (oset fs "entries" (.arr [])) "spec_version"
        (.str "nalt-protocol/1.2.0")) "x_migrated_at" (.str (ts ++ "Z"))))
    | some _ => none
  | _ => none

end PyMigrate

/-! ## Further association-list lemmas -/

theorem odel_oset_self (l : List (String × JValue)) (k : String) (v : JValue) :
    odel (oset l k v) k = odel l k := by
  induction l with
  | nil => simp [oset, odel]
  | cons hd t ih =>
    obtain ⟨k0, v0⟩ := hd
    by_cases hk : k0 = k
    · subst hk
      simp [oset, odel, ih]
    · simp [oset, odel, hk, ih]

theorem odel_oset_ne (l : List (String × JValue)) (k k' : String) (v : JValue)
    (h : k' ≠ k) : odel (oset l k v) k' = oset (odel l k') k v := by
  induction l with
  | nil => simp [oset, odel, Ne.symm h]
  | cons hd t ih =>
    obtain ⟨k0, v0⟩ := hd
    by_cases hk : k0 = k
    · subst hk
      simp [oset, odel, Ne.symm h, ih]
    · by_cases hk' : k0 = k'
      · subst hk'
        simp [oset, odel, hk, ih]
      · simp [oset, odel, hk, hk', ih]

theorem jsIndexOfAux_notMem (l : List String) (s : String) (i : Int)
    (h : l.contains s = false) : NALTMigrator.jsIndexOfAux l s i = -1 := by
  induction l generalizing i with
  | nil => rfl
  | cons a t ih =>
    simp only [List.contains_cons, Bool.or_eq_false_iff, beq_eq_false_iff_ne] at h
    simp [NALTMigrator.jsIndexOfAux, Ne.symm h.1, ih _ h.2]

/-! ## Shared concrete inputs and observation helpers for the claims -/

/-- A fixed stand-in for `new Date().toISOString()`. -/
def tNow : String := "2025-06-01T00:00:00.000Z"

/-- One `Math.random` stream (all draws 0). -/
def zeroRand : Nat → Nat := fun _ => 0

/-- A different `Math.random` stream (all draws 1), i.e. a second run. -/
def oneRand : Nat → Nat := fun _ => 1

/-- A `calculateUTCOffset` oracle that cannot resolve the timezone. -/
def noTz : Option JValue → Option JValue → Option JNum := fun _ _ => none

/-- Remove the provenance stamps (`x_migration` / `x_migrated_at`) a
migration chain writes, leaving everything the spec says must coincide. -/
def stripProv : JValue → JValue
  | .obj fs => .obj (odel (odel fs "x_migration") "x_migrated_at")
  | v => v

/-- Remove the three entropy-dependent outputs of the 1.0.0 migrator:
the generated `document_id`, the generated `timestamp`, and the
`x_migration` stamp. -/
def stripGenL (fs : List (String × JValue)) : List (String × JValue) :=
  odel (odel (odel fs "document_id") "timestamp") "x_migration"

def stripGen : JValue → JValue
  | .obj fs => .obj (stripGenL fs)
  | v => v

/-- Observe one string-valued field of an optional document — used to refute
equalities between concrete migration outputs. -/
def obsStr (o : Option JValue) (k : String) : Option String :=
  match ojget o k with
  | some (.str s) => some s
  | _ => none

/-- A well-formed v1.0.0 document without `document_id`, with a legacy
`content_format`. -/
def docV100 : JValue := .obj [
  ("spec_version", .str "nalt-protocol/1.0.0"),
  ("date", .str "2025-01-15"),
  ("meta", .obj [("language", .str "en"), ("timezone", .str "UTC")]),
  ("entries", .arr [.obj [
    ("entry_id", .str "e1"), ("type", .str "event"), ("mode", .str "morning"),
    ("content_format", .str "plain_text"), ("content", .str "hi")]])]

/-! ## C4: the no-op migration -/

/-- C4: for every document whose declared `spec_version` extracts to the
migrator's target version (the code hardwires the target to `'1.1.1'`),
`migrate` returns `{document: doc, migrated: false}` — the input document
itself, unchanged, as a normal non-error result. -/
theorem C4_noop_migration (doc : JValue) (sv now : String) (r : Nat → Nat)
    (hsv : jget doc "spec_version" = some (.str sv))
    (hver : NALTMigrator.extractVersion sv = some NALTMigrator.targetVersion) :
    NALTMigrator.migrate doc now r = some ⟨doc, false⟩ := by
  unfold NALTMigrator.migrate
  rw [hsv]
  simp [hver]

/-- Witness for C4 at a concrete v1.1.1 document. -/
theorem C4_noop_migration_witness :
    NALTMigrator.migrate (JValue.obj [("spec_version", .str "nalt-protocol/1.1.1")]) tNow zeroRand
      = some ⟨JValue.obj [("spec_version", .str "nalt-protocol/1.1.1")], false⟩ :=
  C4_noop_migration _ "nalt-protocol/1.1.1" tNow zeroRand rfl rfl

/-! ## C5: unknown versions -/

/-- C5 counterexample: the claim says an unknown `spec_version` makes
`migrate` fail with an `UnknownVersionError`.  In the code no such error
exists: for `"nalt-protocol/9.9.9"` the extracted version `"9.9.9"` is not in
the registry, `getMigrationPath` returns the empty path, and `migrate`
returns the ordinary success value `{document: doc, migrated: true}`. -/
theorem C5_counterexample :
    NALTMigrator.migrate (JValue.obj [("spec_version", .str "nalt-protocol/9.9.9")]) tNow zeroRand
      = some ⟨JValue.obj [("spec_version", .str "nalt-protocol/9.9.9")], true⟩ := rfl

/-- C5 amended: a document whose `spec_version` does not extract to a version
known to the registry is not rejected — `migrate` applies no step and returns
`{document: doc, migrated: true}` (a normal result; nothing is thrown and no
error is collected anywhere). -/
theorem C5_amended_unknown_version_not_an_error (doc : JValue) (sv now : String)
    (r : Nat → Nat)
    (hsv : jget doc "spec_version" = some (.str sv))
    (hunk : NALTMigrator.extractVersion sv = none ∨
      ∃ v, NALTMigrator.extractVersion sv = some v ∧
        NALTMigrator.versions.contains v = false) :
    NALTMigrator.migrate doc now r = some ⟨doc, true⟩ := by
  unfold NALTMigrator.migrate
  rw [hsv]
  rcases hunk with h | ⟨v, hv, hmem⟩
  · simp [h, NALTMigrator.getMigrationPath, NALTMigrator.jsIndexOf]
  · have hne : v ≠ NALTMigrator.targetVersion := by
      intro he
      subst he
      exact absurd hmem (by decide)
    have hidx : NALTMigrator.jsIndexOf NALTMigrator.versions (some v) = -1 :=
      jsIndexOfAux_notMem _ _ _ hmem
    simp [hv, hne, NALTMigrator.getMigrationPath, hidx]

/-- Witness for the amended C5 at a concrete unknown-version document. -/
theorem C5_amended_witness :
    NALTMigrator.migrate (JValue.obj [("spec_version", .str "nalt-protocol/2.0.0")]) tNow zeroRand
      = some ⟨JValue.obj [("spec_version", .str "nalt-protocol/2.0.0")], true⟩ :=
  C5_amended_unknown_version_not_an_error _ "nalt-protocol/2.0.0" tNow zeroRand rfl
    (Or.inr ⟨"2.0.0", rfl, by decide⟩)

/-! ## C2: chain composition from 1.0.0 -/

/-- C2 counterexample: for the v1.0.0 document `docV100`, migrating with the
engine differs from composing the three single-step migrations
(1.0.0→1.1.0, 1.1.0→1.1.1, 1.1.1→1.2.0) in more than the provenance stamp:
the engine output has no `document_id` at all (among other differences such
as `content_format` staying `"plain_text"`), because the engine never applies
the 1.0.0→1.1.0 step. -/
theorem C2_counterexample :
    (NALTMigrator.migrate docV100 tNow zeroRand).map (fun res => stripProv res.document) ≠
    (((NALTMigratorV110.migrateFrom_1_0_0 docV100 tNow zeroRand noTz).bind
        NALTMigrator.migrateFrom_1_1_0_to_1_1_1).bind
      (fun d => NALTMigrator.migrateFrom_1_1_1 d tNow)).map stripProv :=
  fun h => absurd (congrArg (fun o => obsStr o "document_id") h) (by decide)

/-- C2 amended: for a document whose `spec_version` extracts to `"1.0.0"`,
the migration path is `["1.1.0", "1.1.1"]`, so `migrate` equals the
composition of the step functions keyed by those versions — the 1.1.0→1.1.1
step followed by the 1.1.1→1.2.0 step applied twice (each step's output fed
to the next, only the last `x_migration` stamp surviving); the 1.0.0→1.1.0
normalizations never run. -/
theorem C2_amended_chain (doc : JValue) (sv now : String) (r : Nat → Nat)
    (hsv : jget doc "spec_version" = some (.str sv))
    (hver : NALTMigrator.extractVersion sv = some "1.0.0") :
    NALTMigrator.migrate doc now r =
      (((NALTMigrator.migrateFrom_1_1_0_to_1_1_1 doc).bind
          (fun a => NALTMigrator.migrateFrom_1_1_1 a now)).bind
        (fun b => NALTMigrator.migrateFrom_1_1_1 b now)).map (fun d => ⟨d, true⟩) := by
  unfold NALTMigrator.migrate
  rw [hsv]
  simp [hver, NALTMigrator.getMigrationPath, NALTMigrator.jsIndexOf,
    NALTMigrator.jsIndexOfAux, NALTMigrator.migrateFrom_1_1_0, List.foldlM,
    NALTMigrator.targetVersion, Option.bind_assoc]

/-- Witness for the amended C2 at `docV100`. -/
theorem C2_amended_chain_witness :
    NALTMigrator.migrate docV100 tNow zeroRand =
      (((NALTMigrator.migrateFrom_1_1_0_to_1_1_1 docV100).bind
          (fun a => NALTMigrator.migrateFrom_1_1_1 a tNow)).bind
        (fun b => NALTMigrator.migrateFrom_1_1_1 b tNow)).map (fun d => ⟨d, true⟩) :=
  C2_amended_chain docV100 "nalt-protocol/1.0.0" tNow zeroRand rfl rfl

/-! ## C9: determinism of migration -/

theorem stripGenL_oset_docid (l : List (String × JValue)) (v : JValue) :
    stripGenL (oset l "document_id" v) = stripGenL l := by
  unfold stripGenL
  rw [odel_oset_self]

theorem stripGenL_oset_timestamp (l : List (String × JValue)) (v : JValue) :
    stripGenL (oset l "timestamp" v) = stripGenL l := by
  unfold stripGenL
  rw [odel_oset_ne _ _ _ _ (by decide), odel_oset_self]

theorem stripGenL_oset_xmig (l : List (String × JValue)) (v : JValue) :
    stripGenL (oset l "x_migration" v) = stripGenL l := by
  unfold stripGenL
  rw [odel_oset_ne _ _ _ _ (by decide), odel_oset_ne _ _ _ _ (by decide), odel_oset_self]

theorem stripGenL_oset_entries (l : List (String × JValue)) (v : JValue) :
    stripGenL (oset l "entries" v) = oset (stripGenL l) "entries" v := by
  unfold stripGenL
  rw [odel_oset_ne _ _ _ _ (by decide), odel_oset_ne _ _ _ _ (by decide),
    odel_oset_ne _ _ _ _ (by decide)]

/-- The final object a 1.0.0 migration builds, after stripping the entropy
fields, depends only on the stripped pre-stamp fields and the entries. -/
theorem stripGen_final (fsB1 fsB2 : List (String × JValue)) (e m1 m2 : JValue)
    (h : stripGenL fsB1 = stripGenL fsB2) :
    stripGen (.obj (oset (oset fsB1 "entries" e) "x_migration" m1)) =
    stripGen (.obj (oset (oset fsB2 "entries" e) "x_migration" m2)) := by
  simp [stripGen, stripGenL_oset_xmig, stripGenL_oset_entries, h]

/-- Two runs of the mapping-and-stamping tail agree after stripping
whenever their inputs hold the same entries and agree after stripping. -/
theorem migTail_strip (fsB1 fsB2 : List (String × JValue)) (n1 n2 : String)
    (hE : oget fsB1 "entries" = oget fsB2 "entries")
    (h : stripGenL fsB1 = stripGenL fsB2) :
    (NALTMigrator.migTailFrom_1_0_0 fsB1 n1).map stripGen =
    (NALTMigrator.migTailFrom_1_0_0 fsB2 n2).map stripGen := by
  unfold NALTMigrator.migTailFrom_1_0_0
  rw [← hE]
  cases hEv : oget fsB1 "entries" with
  | none => rfl
  | some ev =>
    cases ev with
    | null => rfl
    | bool b => rfl
    | num q => rfl
    | str s => rfl
    | obj o => rfl
    | arr es =>
      show Option.map stripGen ((es.mapM NALTMigrator.migEntryFrom_1_0_0).map
          (fun es2 => JValue.obj (oset (oset fsB1 "entries" (.arr es2)) "x_migration"
            (.obj [("from_version", .str "1.0.0"), ("to_version", .str "1.2.0"),
                   ("migrated_at", .str n1)])))) =
        Option.map stripGen ((es.mapM NALTMigrator.migEntryFrom_1_0_0).map
          (fun es2 => JValue.obj (oset (oset fsB2 "entries" (.arr es2)) "x_migration"
            (.obj [("from_version", .str "1.0.0"), ("to_version", .str "1.2.0"),
                   ("migrated_at", .str n2)]))))
      cases hM : es.mapM NALTMigrator.migEntryFrom_1_0_0 with
      | none => rfl
      | some es2 => exact congrArg some (stripGen_final fsB1 fsB2 (JValue.arr es2) _ _ h)

/-- C9 counterexample: the claim says two runs of migration on the same
input produce identical outputs, including the generated `document_id`.
With two different `Math.random` streams (which is what two real runs draw),
the 1.0.0 migrator generates different `document_id` values, so the outputs
differ. -/
theorem C9_counterexample :
    NALTMigrator.migrateFrom_1_0_0 docV100 tNow zeroRand ≠
    NALTMigrator.migrateFrom_1_0_0 docV100 tNow oneRand :=
  fun h => absurd (congrArg (fun o => obsStr o "document_id") h) (by decide)

/-- C9 amended: migration is deterministic except for the entropy-derived
fields — for every input document, any two runs of `migrateFrom_1_0_0`
(arbitrary clock readings `n1`, `n2` and `Math.random` streams `r1`, `r2`)
agree exactly after deleting the generated `document_id`, the generated
`timestamp`, and the `x_migration` provenance stamp. -/
theorem C9_amended_deterministic_modulo_entropy (doc : JValue) (n1 n2 : String)
    (r1 r2 : Nat → Nat) :
    (NALTMigrator.migrateFrom_1_0_0 doc n1 r1).map stripGen =
    (NALTMigrator.migrateFrom_1_0_0 doc n2 r2).map stripGen := by
  cases doc with
  | null => rfl
  | bool b => rfl
  | num q => rfl
  | str s => rfl
  | arr xs => rfl
  | obj fs0 =>
    simp only [NALTMigrator.migrateFrom_1_0_0]
    generalize oset fs0 "spec_version" (JValue.str "nalt-protocol/1.2.0") = fs1
    have hts : ∀ (l : List (String × JValue)) (v : JValue),
        oget (oset l "document_id" v) "timestamp" = oget l "timestamp" :=
      fun l v => oget_oset_ne l _ _ v (by decide)
    have hee : ∀ (l : List (String × JValue)) (v : JValue),
        oget (oset l "document_id" v) "entries" = oget l "entries" :=
      fun l v => oget_oset_ne l _ _ v (by decide)
    have het : ∀ (l : List (String × JValue)) (v : JValue),
        oget (oset l "timestamp" v) "entries" = oget l "entries" :=
      fun l v => oget_oset_ne l _ _ v (by decide)
    by_cases hc1 : jsTruthy (oget fs1 "document_id") = true
    · simp only [hc1, if_true]
      by_cases hc2 : jsTruthy (oget fs1 "timestamp") = true
      · simp only [hc2, if_true]
        exact migTail_strip fs1 fs1 n1 n2 rfl rfl
      · simp only [hc2, if_false, Bool.false_eq_true]
        exact migTail_strip _ _ n1 n2 (by rw [het, het]) (by
          rw [stripGenL_oset_timestamp, stripGenL_oset_timestamp])
    · simp only [hc1, if_false, Bool.false_eq_true, hts]
      by_cases hc2 : jsTruthy (oget fs1 "timestamp") = true
      · simp only [hc2, if_true]
        exact migTail_strip _ _ n1 n2 (by rw [hee, hee]) (by
          rw [stripGenL_oset_docid, stripGenL_oset_docid])
      · simp only [hc2, if_false, Bool.false_eq_true]
        exact migTail_strip _ _ n1 n2 (by rw [het, het, hee, hee]) (by
          rw [stripGenL_oset_timestamp, stripGenL_oset_timestamp,
            stripGenL_oset_docid, stripGenL_oset_docid])

/-! ## C3 and C10: the 1.1.1→1.2.0 relocation step (Python script) -/

theorem oget_moveField_other (l : List (String × JValue)) (oldF newF c : String)
    (h1 : c ≠ oldF) (h2 : c ≠ newF) :
    oget (PyMigrate.moveField l oldF newF) c = oget l c := by
  unfold PyMigrate.moveField
  cases hv : oget l oldF with
  | none => rfl
  | some v => rw [oget_oset_ne _ _ _ _ h2, oget_odel_ne _ _ _ h1]

theorem oget_moveField_new (l : List (String × JValue)) (oldF newF : String) (v : JValue)
    (h : oget l oldF = some v) :
    oget (PyMigrate.moveField l oldF newF) newF = some v := by
  unfold PyMigrate.moveField
  rw [h, oget_oset_self]

theorem oget_moveField_old (l : List (String × JValue)) (oldF newF : String)
    (h : oldF ≠ newF) :
    oget (PyMigrate.moveField l oldF newF) oldF = none := by
  unfold PyMigrate.moveField
  cases hv : oget l oldF with
  | none => exact hv
  | some v => rw [oget_oset_ne _ _ _ _ h, oget_odel_self]

/-- A key untouched by every relocation pair is preserved by the fold. -/
theorem migrate_entryFields_other (efs : List (String × JValue)) (c : String)
    (h : ∀ fx ∈ PyMigrate.field_mappings, c ≠ fx.1 ∧ c ≠ fx.2) :
    oget (PyMigrate.migrate_entryFields efs) c = oget efs c := by
  simp only [PyMigrate.migrate_entryFields, PyMigrate.field_mappings, List.foldl]
  rw [oget_moveField_other _ "created_at" "x_created_at" c
        (h ("created_at", "x_created_at") (by decide)).1
        (h ("created_at", "x_created_at") (by decide)).2,
      oget_moveField_other _ "end_date" "x_end_date" c
        (h ("end_date", "x_end_date") (by decide)).1
        (h ("end_date", "x_end_date") (by decide)).2,
      oget_moveField_other _ "entities" "x_entities" c
        (h ("entities", "x_entities") (by decide)).1
        (h ("entities", "x_entities") (by decide)).2,
      oget_moveField_other _ "tags" "x_tags" c
        (h ("tags", "x_tags") (by decide)).1
        (h ("tags", "x_tags") (by decide)).2,
      oget_moveField_other _ "moods" "x_moods" c
        (h ("moods", "x_moods") (by decide)).1
        (h ("moods", "x_moods") (by decide)).2,
      oget_moveField_other _ "summary" "x_summary" c
        (h ("summary", "x_summary") (by decide)).1
        (h ("summary", "x_summary") (by decide)).2]

/-- Every pair of the relocation table moves its field: the value reappears
under the `x_`-prefixed key and the old key is gone. -/
theorem migrate_entryFields_moved (efs : List (String × JValue)) (f x : String) (v : JValue)
    (hmem : (f, x) ∈ PyMigrate.field_mappings)
    (hv : oget efs f = some v) :
    oget (PyMigrate.migrate_entryFields efs) x = some v ∧
    oget (PyMigrate.migrate_entryFields efs) f = none := by
  simp only [PyMigrate.field_mappings, List.mem_cons, List.not_mem_nil, or_false,
    Prod.mk.injEq] at hmem
  rcases hmem with h0 | h0 | h0 | h0 | h0 | h0 <;> obtain ⟨rfl, rfl⟩ := h0
  · refine ⟨?_, ?_⟩ <;>
      simp only [PyMigrate.migrate_entryFields, PyMigrate.field_mappings, List.foldl]
    · rw [oget_moveField_other _ "created_at" "x_created_at" "x_summary" (by decide) (by decide),
          oget_moveField_other _ "end_date" "x_end_date" "x_summary" (by decide) (by decide),
          oget_moveField_other _ "entities" "x_entities" "x_summary" (by decide) (by decide),
          oget_moveField_other _ "tags" "x_tags" "x_summary" (by decide) (by decide),
          oget_moveField_other _ "moods" "x_moods" "x_summary" (by decide) (by decide)]
      exact oget_moveField_new _ _ _ _ hv
    · rw [oget_moveField_other _ "created_at" "x_created_at" "summary" (by decide) (by decide),
          oget_moveField_other _ "end_date" "x_end_date" "summary" (by decide) (by decide),
          oget_moveField_other _ "entities" "x_entities" "summary" (by decide) (by decide),
          oget_moveField_other _ "tags" "x_tags" "summary" (by decide) (by decide),
          oget_moveField_other _ "moods" "x_moods" "summary" (by decide) (by decide)]
      exact oget_moveField_old _ _ _ (by decide)
  · have hv1 : oget (PyMigrate.moveField efs "summary" "x_summary") "moods" = some v := by
      rw [oget_moveField_other _ "summary" "x_summary" "moods" (by decide) (by decide)]
      exact hv
    refine ⟨?_, ?_⟩ <;>
      simp only [PyMigrate.migrate_entryFields, PyMigrate.field_mappings, List.foldl]
    · rw [oget_moveField_other _ "created_at" "x_created_at" "x_moods" (by decide) (by decide),
          oget_moveField_other _ "end_date" "x_end_date" "x_moods" (by decide) (by decide),
          oget_moveField_other _ "entities" "x_entities" "x_moods" (by decide) (by decide),
          oget_moveField_other _ "tags" "x_tags" "x_moods" (by decide) (by decide)]
      exact oget_moveField_new _ _ _ _ hv1
    · rw [oget_moveField_other _ "created_at" "x_created_at" "moods" (by decide) (by decide),
          oget_moveField_other _ "end_date" "x_end_date" "moods" (by decide) (by decide),
          oget_moveField_other _ "entities" "x_entities" "moods" (by decide) (by decide),
          oget_moveField_other _ "tags" "x_tags" "moods" (by decide) (by decide)]
      exact oget_moveField_old _ _ _ (by decide)
  · have hv1 : oget (PyMigrate.moveField (PyMigrate.moveField efs "summary" "x_summary")
        "moods" "x_moods") "tags" = some v := by
      rw [oget_moveField_other _ "moods" "x_moods" "tags" (by decide) (by decide),
          oget_moveField_other _ "summary" "x_summary" "tags" (by decide) (by decide)]
      exact hv
    refine ⟨?_, ?_⟩ <;>
      simp only [PyMigrate.migrate_entryFields, PyMigrate.field_mappings, List.foldl]
    · rw [oget_moveField_other _ "created_at" "x_created_at" "x_tags" (by decide) (by decide),
          oget_moveField_other _ "end_date" "x_end_date" "x_tags" (by decide) (by decide),
          oget_moveField_other _ "entities" "x_entities" "x_tags" (by decide) (by decide)]
      exact oget_moveField_new _ _ _ _ hv1
    · rw [oget_moveField_other _ "created_at" "x_created_at" "tags" (by decide) (by decide),
          oget_moveField_other _ "end_date" "x_end_date" "tags" (by decide) (by decide),
          oget_moveField_other _ "entities" "x_entities" "tags" (by decide) (by decide)]
      exact oget_moveField_old _ _ _ (by decide)
  · have hv1 : oget (PyMigrate.moveField (PyMigrate.moveField (PyMigrate.moveField efs
        "summary" "x_summary") "moods" "x_moods") "tags" "x_tags") "entities" = some v := by
      rw [oget_moveField_other _ "tags" "x_tags" "entities" (by decide) (by decide),
          oget_moveField_other _ "moods" "x_moods" "entities" (by decide) (by decide),
          oget_moveField_other _ "summary" "x_summary" "entities" (by decide) (by decide)]
      exact hv
    refine ⟨?_, ?_⟩ <;>
      simp only [PyMigrate.migrate_entryFields, PyMigrate.field_mappings, List.foldl]
    · rw [oget_moveField_other _ "created_at" "x_created_at" "x_entities" (by decide) (by decide),
          oget_moveField_other _ "end_date" "x_end_date" "x_entities" (by decide) (by decide)]
      exact oget_moveField_new _ _ _ _ hv1
    · rw [oget_moveField_other _ "created_at" "x_created_at" "entities" (by decide) (by decide),
          oget_moveField_other _ "end_date" "x_end_date" "entities" (by decide) (by decide)]
      exact oget_moveField_old _ _ _ (by decide)
  · have hv1 : oget (PyMigrate.moveField (PyMigrate.moveField (PyMigrate.moveField
        (PyMigrate.moveField efs "summary" "x_summary") "moods" "x_moods") "tags" "x_tags")
        "entities" "x_entities") "end_date" = some v := by
      rw [oget_moveField_other _ "entities" "x_entities" "end_date" (by decide) (by decide),
          oget_moveField_other _ "tags" "x_tags" "end_date" (by decide) (by decide),
          oget_moveField_other _ "moods" "x_moods" "end_date" (by decide) (by decide),
          oget_moveField_other _ "summary" "x_summary" "end_date" (by decide) (by decide)]
      exact hv
    refine ⟨?_, ?_⟩ <;>
      simp only [PyMigrate.migrate_entryFields, PyMigrate.field_mappings, List.foldl]
    · rw [oget_moveField_other _ "created_at" "x_created_at" "x_end_date" (by decide) (by decide)]
      exact oget_moveField_new _ _ _ _ hv1
    · rw [oget_moveField_other _ "created_at" "x_created_at" "end_date" (by decide) (by decide)]
      exact oget_moveField_old _ _ _ (by decide)
  · have hv1 : oget (PyMigrate.moveField (PyMigrate.moveField (PyMigrate.moveField
        (PyMigrate.moveField (PyMigrate.moveField efs "summary" "x_summary") "moods" "x_moods")
        "tags" "x_tags") "entities" "x_entities") "end_date" "x_end_date") "created_at"
        = some v := by
      rw [oget_moveField_other _ "end_date" "x_end_date" "created_at" (by decide) (by decide),
          oget_moveField_other _ "entities" "x_entities" "created_at" (by decide) (by decide),
          oget_moveField_other _ "tags" "x_tags" "created_at" (by decide) (by decide),
          oget_moveField_other _ "moods" "x_moods" "created_at" (by decide) (by decide),
          oget_moveField_other _ "summary" "x_summary" "created_at" (by decide) (by decide)]
      exact hv
    refine ⟨?_, ?_⟩ <;>
      simp only [PyMigrate.migrate_entryFields, PyMigrate.field_mappings, List.foldl]
    · exact oget_moveField_new _ _ _ _ hv1
    · exact oget_moveField_old _ _ _ (by decide)

/-- C3: the 1.1.1→1.2.0 step (`migrate_document` / `migrate_entry`) moves
`signature` to `x_signature` and `meta.x_utc_offset_minutes` to the document
level (value preserved, old key removed), relocates every entry field of the
relocation table to its `x_`-prefixed name (value preserved, old key
removed), leaves the five core entry fields and `x_relations`/`x_due_date`
untouched, sets `spec_version` to `nalt-protocol/1.2.0`, and attaches the
`x_migrated_at` timestamp. -/
theorem C3_migration_step_1_1_1_to_1_2_0
    (dfs m efs : List (String × JValue)) (es es2 : List JValue) (ts : String)
    (sigv offv : JValue)
    (hsig : oget dfs "signature" = some sigv)
    (hmeta : oget dfs "meta" = some (.obj m))
    (hoff : oget m "x_utc_offset_minutes" = some offv)
    (hentries : oget dfs "entries" = some (.arr es))
    (hok : es.mapM PyMigrate.migrate_entry = some es2) :
    (ojget (PyMigrate.migrate_document (.obj dfs) ts) "spec_version"
        = some (.str "nalt-protocol/1.2.0") ∧
     ojget (PyMigrate.migrate_document (.obj dfs) ts) "x_migrated_at"
        = some (.str (ts ++ "Z")) ∧
     ojget (PyMigrate.migrate_document (.obj dfs) ts) "x_signature" = some sigv ∧
     ojget (PyMigrate.migrate_document (.obj dfs) ts) "signature" = none ∧
     ojget (PyMigrate.migrate_document (.obj dfs) ts) "x_utc_offset_minutes" = some offv ∧
     ojget (PyMigrate.migrate_document (.obj dfs) ts) "meta"
        = some (.obj (odel m "x_utc_offset_minutes")) ∧
     oget (odel m "x_utc_offset_minutes") "x_utc_offset_minutes" = none ∧
     ojget (PyMigrate.migrate_document (.obj dfs) ts) "entries" = some (.arr es2)) ∧
    (∀ f x v, (f, x) ∈ PyMigrate.field_mappings → oget efs f = some v →
      oget (PyMigrate.migrate_entryFields efs) x = some v ∧
      oget (PyMigrate.migrate_entryFields efs) f = none) ∧
    (∀ c, c ∈ (["entry_id", "type", "mode", "content_format", "content",
                "x_relations", "x_due_date"] : List String) →
      oget (PyMigrate.migrate_entryFields efs) c = oget efs c) := by
  have hm1 : oget (oset (odel dfs "signature") "x_signature" sigv) "meta"
      = some (.obj m) := by
    rw [oget_oset_ne _ _ _ _ (by decide), oget_odel_ne _ _ _ (by decide)]
    exact hmeta
  have he1 : oget (oset (oset (oset (odel dfs "signature") "x_signature" sigv) "meta"
      (JValue.obj (odel m "x_utc_offset_minutes"))) "x_utc_offset_minutes" offv) "entries"
      = some (.arr es) := by
    rw [oget_oset_ne _ _ _ _ (by decide), oget_oset_ne _ _ _ _ (by decide),
        oget_oset_ne _ _ _ _ (by decide), oget_odel_ne _ _ _ (by decide)]
    exact hentries
  have hres : PyMigrate.migrate_document (.obj dfs) ts
      = some (.obj (oset (oset (oset (oset (oset (oset (odel dfs "signature")
          "x_signature" sigv) "meta" (.obj (odel m "x_utc_offset_minutes")))
          "x_utc_offset_minutes" offv) "entries" (.arr es2)) "spec_version"
          (.str "nalt-protocol/1.2.0")) "x_migrated_at" (.str (ts ++ "Z")))) := by
    simp only [PyMigrate.migrate_document, hsig, hm1, hoff, he1, hok]
    rfl
  refine ⟨⟨?_, ?_, ?_, ?_, ?_, ?_, ?_, ?_⟩, ?_, ?_⟩
  · rw [hres]
    show oget _ "spec_version" = _
    rw [oget_oset_ne _ _ _ _ (by decide), oget_oset_self]
  · rw [hres]
    show oget _ "x_migrated_at" = _
    rw [oget_oset_self]
  · rw [hres]
    show oget _ "x_signature" = _
    rw [oget_oset_ne _ _ _ _ (by decide), oget_oset_ne _ _ _ _ (by decide),
        oget_oset_ne _ _ _ _ (by decide), oget_oset_ne _ _ _ _ (by decide),
        oget_oset_ne _ _ _ _ (by decide), oget_oset_self]
  · rw [hres]
    show oget _ "signature" = _
    rw [oget_oset_ne _ _ _ _ (by decide), oget_oset_ne _ _ _ _ (by decide),
        oget_oset_ne _ _ _ _ (by decide), oget_oset_ne _ _ _ _ (by decide),
        oget_oset_ne _ _ _ _ (by decide), oget_oset_ne _ _ _ _ (by decide),
        oget_odel_self]
  · rw [hres]
    show oget _ "x_utc_offset_minutes" = _
    rw [oget_oset_ne _ _ _ _ (by decide), oget_oset_ne _ _ _ _ (by decide),
        oget_oset_ne _ _ _ _ (by decide), oget_oset_self]
  · rw [hres]
    show oget _ "meta" = _
    rw [oget_oset_ne _ _ _ _ (by decide), oget_oset_ne _ _ _ _ (by decide),
        oget_oset_ne _ _ _ _ (by decide), oget_oset_ne _ _ _ _ (by decide),
        oget_oset_self]
  · rw [oget_odel_self]
  · rw [hres]
    show oget _ "entries" = _
    rw [oget_oset_ne _ _ _ _ (by decide), oget_oset_ne _ _ _ _ (by decide),
        oget_oset_self]
  · exact fun f x v hm hv => migrate_entryFields_moved efs f x v hm hv
  · intro c hc
    fin_cases hc <;> exact migrate_entryFields_other efs _ (by decide)

/-- The signature object of the C3 witness document. -/
def c3sig : JValue := .obj [("alg", .str "EdDSA"), ("sig", .str "zz"),
  ("public_key", .str "did:key:abc")]

/-- The meta object of the C3 witness document. -/
def c3m : List (String × JValue) := [("language", .str "en"), ("timezone", .str "UTC"),
  ("x_utc_offset_minutes", .num ⟨540, 0⟩)]

/-- An entry carrying every relocatable field plus the pass-through fields. -/
def c3efs : List (String × JValue) := [
  ("entry_id", .str "e1"), ("type", .str "event"), ("mode", .str "morning"),
  ("content_format", .str "text/plain"), ("content", .str "hi"),
  ("summary", .str "s"),
  ("moods", .arr [.obj [("type", .str "happy"), ("intensity", .num ⟨85, 2⟩)]]),
  ("tags", .arr [.str "work"]),
  ("entities", .obj [("people", .arr [.str "alice"])]),
  ("end_date", .str "2025-01-16"), ("created_at", .str "2025-01-15T10:00:00Z"),
  ("x_relations", .arr []), ("x_due_date", .str "2025-02-01")]

/-- A full v1.1.1 document for the C3 witness. -/
def c3dfs : List (String × JValue) := [
  ("spec_version", .str "nalt-protocol/1.1.1"),
  ("document_id", .str "123e4567-e89b-42d3-a456-426614174000"),
  ("date", .str "2025-01-15"),
  ("signature", c3sig),
  ("meta", .obj c3m),
  ("entries", .arr [.obj c3efs])]

/-- Witness for C3 at a concrete v1.1.1 document. -/
theorem C3_migration_step_witness :
    ojget (PyMigrate.migrate_document (.obj c3dfs) "2025-06-01T00:00:00") "spec_version"
      = some (.str "nalt-protocol/1.2.0") ∧
    ojget (PyMigrate.migrate_document (.obj c3dfs) "2025-06-01T00:00:00") "x_migrated_at"
      = some (.str "2025-06-01T00:00:00Z") ∧
    ojget (PyMigrate.migrate_document (.obj c3dfs) "2025-06-01T00:00:00") "x_signature"
      = some c3sig ∧
    ojget (PyMigrate.migrate_document (.obj c3dfs) "2025-06-01T00:00:00") "signature" = none ∧
    ojget (PyMigrate.migrate_document (.obj c3dfs) "2025-06-01T00:00:00") "x_utc_offset_minutes"
      = some (.num ⟨540, 0⟩) ∧
    oget (PyMigrate.migrate_entryFields c3efs) "x_summary" = some (.str "s") ∧
    oget (PyMigrate.migrate_entryFields c3efs) "summary" = none ∧
    oget (PyMigrate.migrate_entryFields c3efs) "entry_id" = oget c3efs "entry_id" ∧
    oget (PyMigrate.migrate_entryFields c3efs) "x_relations" = oget c3efs "x_relations" := by
  have h := C3_migration_step_1_1_1_to_1_2_0 c3dfs c3m c3efs [.obj c3efs]
    [JValue.obj (PyMigrate.migrate_entryFields c3efs)] "2025-06-01T00:00:00" c3sig
    (.num ⟨540, 0⟩) rfl rfl rfl rfl rfl
  exact ⟨h.1.1, h.1.2.1, h.1.2.2.1, h.1.2.2.2.1, h.1.2.2.2.2.1,
    (h.2.1 "summary" "x_summary" (.str "s") (by decide) rfl).1,
    (h.2.1 "summary" "x_summary" (.str "s") (by decide) rfl).2,
    h.2.2 "entry_id" (by decide), h.2.2 "x_relations" (by decide)⟩

/-- C10: if an entry already carries a relocation target name (for instance
both `summary` and `x_summary`), the 1.1.1→1.2.0 entry relocation overwrites
the pre-existing `x_`-prefixed value with the relocated core value — the
result holds the core field's value under the target key (the prior
extension value is not merged or preserved) and the old key is removed. -/
theorem C10_relocation_overwrites_extension (efs : List (String × JValue))
    (f x : String) (v w : JValue)
    (hmem : (f, x) ∈ PyMigrate.field_mappings)
    (hold : oget efs f = some v)
    (_hpre : oget efs x = some w) :
    oget (PyMigrate.migrate_entryFields efs) x = some v ∧
    oget (PyMigrate.migrate_entryFields efs) f = none :=
  migrate_entryFields_moved efs f x v hmem hold

/-- Witness for C10: an entry with `summary = "fresh"` and a pre-existing
`x_summary = "old"` ends with `x_summary = "fresh"`. -/
theorem C10_relocation_overwrites_witness :
    oget (PyMigrate.migrate_entryFields
        [("summary", JValue.str "fresh"), ("x_summary", JValue.str "old")]) "x_summary"
      = some (JValue.str "fresh") ∧
    oget (PyMigrate.migrate_entryFields
        [("summary", JValue.str "fresh"), ("x_summary", JValue.str "old")]) "summary"
      = none :=
  C10_relocation_overwrites_extension _ "summary" "x_summary" (.str "fresh") (.str "old")
    (by decide) rfl rfl

/-! ## C6: dangling `x_relations` references -/

/-- C6 counterexample: the claim quantifies over *every* document with a
dangling relation, but when the document also has a schema violation,
`validate` returns only the schema errors: here the single reported error is
the bad `type` enum — no error path points at the dangling relation. -/
theorem C6_counterexample :
    (NALTValidator.validate (.obj [
      ("spec_version", .str "nalt-protocol/1.1.1"),
      ("document_id", .str "123e4567-e89b-42d3-a456-426614174000"),
      ("date", .str "2025-01-15"),
      ("meta", .obj [("language", .str "en"), ("timezone", .str "UTC")]),
      ("entries", .arr [.obj [
        ("entry_id", .str "e1"), ("type", .str "invalid"), ("mode", .str "morning"),
        ("content_format", .str "text/plain"), ("content", .str "hi"),
        ("x_relations", .arr [.obj [("type", .str "related_to"),
          ("target_id", .str "ghost")]])]])])).valid = false ∧
    (NALTValidator.validate (.obj [
      ("spec_version", .str "nalt-protocol/1.1.1"),
      ("document_id", .str "123e4567-e89b-42d3-a456-426614174000"),
      ("date", .str "2025-01-15"),
      ("meta", .obj [("language", .str "en"), ("timezone", .str "UTC")]),
      ("entries", .arr [.obj [
        ("entry_id", .str "e1"), ("type", .str "invalid"), ("mode", .str "morning"),
        ("content_format", .str "text/plain"), ("content", .str "hi"),
        ("x_relations", .arr [.obj [("type", .str "related_to"),
          ("target_id", .str "ghost")]])]])])).errors
      = [⟨"/entries/0/type", "enum"⟩] := by decide

/-- C6 amended: for every document that passes the schema pass, an entry
whose `x_relations` holds a relation with an unresolvable `target_id` makes
`validate` return `valid = false` with an error naming the dangling target,
whose path points at that entry's `x_relations` array
(`/entries/<entry_id>/x_relations`). -/
theorem C6_amended_dangling_reference (doc : JValue) (es rs : List JValue)
    (e rel : JValue) (eid ts : String)
    (hS : NALTValidator.schemaErrors doc = [])
    (hE : jget doc "entries" = some (.arr es))
    (he : e ∈ es)
    (hr : jget e "x_relations" = some (.arr rs))
    (hrel : rel ∈ rs)
    (hid : jget e "entry_id" = some (.str eid))
    (ht : jget rel "target_id" = some (.str ts))
    (hdangling : (es.map (fun x => jget x "entry_id")).contains
      (some (JValue.str ts)) = false) :
    (NALTValidator.validate doc).valid = false ∧
    (⟨"/entries/" ++ eid ++ "/x_relations",
      "Invalid target_id reference: " ++ ts⟩ : NALTValidator.VError)
      ∈ (NALTValidator.validate doc).errors := by
  have hcust : (⟨"/entries/" ++ eid ++ "/x_relations",
      "Invalid target_id reference: " ++ ts⟩ : NALTValidator.VError)
      ∈ NALTValidator.customValidations doc := by
    unfold NALTValidator.customValidations
    apply List.mem_append_right
    rw [hE]
    refine List.mem_flatMap.mpr ⟨e, he, ?_⟩
    rw [hr]
    refine List.mem_filterMap.mpr ⟨rel, hrel, ?_⟩
    rw [ht, hdangling]
    simp [hid, ht, NALTValidator.tplStr]
  have hcustFalse : (NALTValidator.customValidations doc).isEmpty = false := by
    cases hc : NALTValidator.customValidations doc with
    | nil => rw [hc] at hcust; simp at hcust
    | cons a l => rfl
  refine ⟨?_, ?_⟩
  · simp [NALTValidator.validate, hS, hcustFalse]
  · simp only [NALTValidator.validate, hS, List.isEmpty_nil, if_true, hcustFalse,
      Bool.false_eq_true, if_false]
    exact hcust

/-- An entry whose only defect is one dangling relation. -/
def c6entry : JValue := .obj [
  ("entry_id", .str "e1"), ("type", .str "event"), ("mode", .str "morning"),
  ("content_format", .str "text/plain"), ("content", .str "hi"),
  ("x_relations", .arr [.obj [("type", .str "related_to"), ("target_id", .str "ghost")]])]

/-- A schema-valid document whose only defect is one dangling relation. -/
def c6doc : JValue := .obj [
  ("spec_version", .str "nalt-protocol/1.1.1"),
  ("document_id", .str "123e4567-e89b-42d3-a456-426614174000"),
  ("date", .str "2025-01-15"),
  ("meta", .obj [("language", .str "en"), ("timezone", .str "UTC")]),
  ("entries", .arr [c6entry])]

/-- Witness for the amended C6 at `c6doc`. -/
theorem C6_amended_witness :
    (NALTValidator.validate c6doc).valid = false ∧
    (⟨"/entries/" ++ "e1" ++ "/x_relations",
      "Invalid target_id reference: " ++ "ghost"⟩ : NALTValidator.VError)
      ∈ (NALTValidator.validate c6doc).errors :=
  C6_amended_dangling_reference c6doc [c6entry]
    [.obj [("type", .str "related_to"), ("target_id", .str "ghost")]]
    c6entry (.obj [("type", .str "related_to"), ("target_id", .str "ghost")])
    "e1" "ghost" (by decide) rfl (by simp) rfl (by simp) rfl rfl (by decide)

/-! ## C1: validator completeness -/

/-- C1 counterexample: a document with four independent defects — a bad
`type` enum, a bad `mode` enum, a mood intensity of 1.5 (out of range), and a
dangling `x_relations` target.  The claim demands exactly 4 errors; the code
returns only the 3 schema-pass errors, because `customValidations` (which
would report the dangling reference) is reached only when the schema pass is
clean. -/
theorem C1_counterexample :
    (NALTValidator.validate (.obj [
      ("spec_version", .str "nalt-protocol/1.1.1"),
      ("document_id", .str "123e4567-e89b-42d3-a456-426614174000"),
      ("date", .str "2025-01-15"),
      ("meta", .obj [("language", .str "en"), ("timezone", .str "UTC")]),
      ("entries", .arr [
        .obj [
          ("entry_id", .str "e1"), ("type", .str "invalid1"), ("mode", .str "morning"),
          ("content_format", .str "text/plain"), ("content", .str "hi"),
          ("moods", .arr [.obj [("type", .str "happy"), ("intensity", .num ⟨15, 1⟩)]]),
          ("x_relations", .arr [.obj [("type", .str "related_to"),
            ("target_id", .str "ghost")]])],
        .obj [
          ("entry_id", .str "e2"), ("type", .str "event"), ("mode", .str "badmode"),
          ("content_format", .str "text/plain"), ("content", .str "x")]])])).valid
      = false ∧
    (NALTValidator.validate (.obj [
      ("spec_version", .str "nalt-protocol/1.1.1"),
      ("document_id", .str "123e4567-e89b-42d3-a456-426614174000"),
      ("date", .str "2025-01-15"),
      ("meta", .obj [("language", .str "en"), ("timezone", .str "UTC")]),
      ("entries", .arr [
        .obj [
          ("entry_id", .str "e1"), ("type", .str "invalid1"), ("mode", .str "morning"),
          ("content_format", .str "text/plain"), ("content", .str "hi"),
          ("moods", .arr [.obj [("type", .str "happy"), ("intensity", .num ⟨15, 1⟩)]]),
          ("x_relations", .arr [.obj [("type", .str "related_to"),
            ("target_id", .str "ghost")]])],
        .obj [
          ("entry_id", .str "e2"), ("type", .str "event"), ("mode", .str "badmode"),
          ("content_format", .str "text/plain"), ("content", .str "x")]])])).errors.length
      = 3 := by decide

/-- A fully valid entry. -/
def c1goodEntry : JValue := .obj [
  ("entry_id", .str "e0"), ("type", .str "event"), ("mode", .str "morning"),
  ("content_format", .str "text/plain"), ("content", .str "ok")]

/-- An entry with exactly one schema defect (bad `type` enum). -/
def c1badEntry : JValue := .obj [
  ("entry_id", .str "bad"), ("type", .str "invalid"), ("mode", .str "none"),
  ("content_format", .str "text/plain"), ("content", .str "x")]

/-- A valid base document extended with `n` copies of the one-defect entry. -/
def mkDocC1 (n : Nat) : JValue := .obj [
  ("spec_version", .str "nalt-protocol/1.1.1"),
  ("document_id", .str "123e4567-e89b-42d3-a456-426614174000"),
  ("date", .str "2025-01-15"),
  ("meta", .obj [("language", .str "en"), ("timezone", .str "UTC")]),
  ("entries", .arr (c1goodEntry :: List.replicate n c1badEntry))]

set_option maxHeartbeats 1000000 in
/-- The one-defect entry yields exactly one ajv error, at every path. -/
theorem entryErrs_bad_len (p : String) :
    (NALTValidator.entryErrs p c1badEntry).length = 1 := rfl

theorem idxErrs_replicate_bad (n : Nat) : ∀ i : Nat,
    (NALTValidator.idxErrs "/entries" NALTValidator.entryErrs i
      (List.replicate n c1badEntry)).length = n := by
  induction n with
  | zero => intro i; rfl
  | succ k ih =>
    intro i
    show (NALTValidator.entryErrs ("/entries" ++ "/" ++ Nat.repr i) c1badEntry ++
      NALTValidator.idxErrs "/entries" NALTValidator.entryErrs (i + 1)
        (List.replicate k c1badEntry)).length = k + 1
    rw [List.length_append, entryErrs_bad_len, ih]
    omega

set_option maxHeartbeats 1000000 in
/-- Everything outside the entries is valid, so the schema pass reports the
per-entry errors only (the good head entry contributes none). -/
theorem schemaErrors_mkDocC1 (n : Nat) :
    NALTValidator.schemaErrors (mkDocC1 n) =
      NALTValidator.idxErrs "/entries" NALTValidator.entryErrs 1
        (List.replicate n c1badEntry) := by
  show NALTValidator.idxErrs "/entries" NALTValidator.entryErrs 1
    (List.replicate n c1badEntry) ++ ([] : List NALTValidator.VError) = _
  exact List.append_nil _

/-- C1 amended: `validate` reports every defect of the active pass at once
(never stopping at the first error): a document that is a valid base plus `n`
entries each carrying one bad `type` enum yields exactly `n` errors and is
valid exactly when `n = 0`.  But the passes are not combined: when the schema
pass reports anything, cross-field defects are omitted (see the
counterexample), so "exactly K errors for K defects" holds only when all
defects lie in a single pass. -/
theorem C1_amended_all_defects_of_a_pass_reported (n : Nat) :
    ((NALTValidator.validate (mkDocC1 n)).valid = (n == 0)) ∧
    ((NALTValidator.validate (mkDocC1 n)).errors.length = n) := by
  cases n with
  | zero => exact ⟨rfl, rfl⟩
  | succ k =>
    have hlen : (NALTValidator.schemaErrors (mkDocC1 (k + 1))).length = k + 1 := by
      rw [schemaErrors_mkDocC1, idxErrs_replicate_bad]
    have hne : (NALTValidator.schemaErrors (mkDocC1 (k + 1))).isEmpty = false := by
      cases hc : NALTValidator.schemaErrors (mkDocC1 (k + 1)) with
      | nil => rw [hc] at hlen; simp at hlen
      | cons a l => rfl
    constructor
    · simp [NALTValidator.validate, hne]
    · simp [NALTValidator.validate, hne, hlen]

/-! ## C7: unknown non-`x_` fields are violations only under v1.0.0 -/

/-- A v1.1.0 document with the unprefixed unknown field `custom_field`
inside both the meta object and an entry. -/
def c7docV110 : JValue := .obj [
  ("spec_version", .str "nalt-protocol/1.1.0"),
  ("document_id", .str "123e4567-e89b-42d3-a456-426614174000"),
  ("date", .str "2025-01-15"),
  ("meta", .obj [("language", .str "en"), ("timezone", .str "UTC"),
    ("custom_field", .str "v")]),
  ("entries", .arr [.obj [
    ("entry_id", .str "e1"), ("type", .str "event"), ("mode", .str "morning"),
    ("content_format", .str "text/plain"), ("content", .str "hi"),
    ("custom_field", .str "v")]])]

/-- The analogous v1.1.1 document. -/
def c7docV111 : JValue := .obj [
  ("spec_version", .str "nalt-protocol/1.1.1"),
  ("document_id", .str "123e4567-e89b-42d3-a456-426614174000"),
  ("date", .str "2025-01-15"),
  ("meta", .obj [("language", .str "en"), ("timezone", .str "UTC"),
    ("custom_field", .str "v")]),
  ("entries", .arr [.obj [
    ("entry_id", .str "e1"), ("type", .str "event"), ("mode", .str "morning"),
    ("content_format", .str "text/plain"), ("content", .str "hi"),
    ("custom_field", .str "v")]])]

/-- The analogous v1.2.0 document. -/
def c7docV120 : JValue := .obj [
  ("spec_version", .str "nalt-protocol/1.2.0"),
  ("document_id", .str "123e4567-e89b-42d3-a456-426614174000"),
  ("date", .str "2025-01-15"),
  ("meta", .obj [("language", .str "en"), ("timezone", .str "UTC"),
    ("custom_field", .str "v")]),
  ("entries", .arr [.obj [
    ("entry_id", .str "e1"), ("type", .str "event"), ("mode", .str "morning"),
    ("content_format", .str "text/plain"), ("content", .str "hi"),
    ("custom_field", .str "v")]])]

/-- C7: the v1.0.0 schema alone rejects unprefixed unknown fields in entry
and meta objects (`additionalProperties: false` next to the `^x_`
`patternProperties`): any document with such a field in an entry, or in the
meta object, is invalid under v1.0.0 — while the analogous documents carrying
`custom_field` in both places are fully valid under v1.1.0, v1.1.1 and
v1.2.0, whose entry/meta objects set `additionalProperties: true`. -/
theorem C7_unknown_fields_strict_only_v100 :
    (∀ (dfs : List (String × JValue)) (es : List JValue) (efs : List (String × JValue))
       (k : String) (v : JValue),
      oget dfs "entries" = some (.arr es) → JValue.obj efs ∈ es → (k, v) ∈ efs →
      SchemaV100.entryPropNames.contains k = false → Fmt.xPrefixed k = false →
      SchemaV100.validDoc (.obj dfs) = false) ∧
    (∀ (dfs m : List (String × JValue)) (k : String) (v : JValue),
      oget dfs "meta" = some (.obj m) → (k, v) ∈ m →
      SchemaV100.metaPropNames.contains k = false → Fmt.xPrefixed k = false →
      SchemaV100.validDoc (.obj dfs) = false) ∧
    SchemaV110.validDoc c7docV110 = true ∧
    SchemaV111.validDoc c7docV111 = true ∧
    SchemaV120.validDoc c7docV120 = true := by
  refine ⟨?_, ?_, by decide, by decide, by decide⟩
  · intro dfs es efs k v hE he hk hn hx
    have hbad : (fun kv : String × JValue =>
        SchemaV100.entryPropNames.contains kv.1 || Fmt.xPrefixed kv.1) (k, v) = false := by
      show (SchemaV100.entryPropNames.contains k || Fmt.xPrefixed k) = false
      rw [hn, hx]
      rfl
    have hall : efs.all (fun kv =>
        SchemaV100.entryPropNames.contains kv.1 || Fmt.xPrefixed kv.1) = false :=
      all_false_of_mem hk hbad
    have hentry : SchemaV100.entryOk (.obj efs) = false := by
      simp only [SchemaV100.entryOk]
      rw [hall]
      simp only [Bool.and_false]
    have hesall : es.all SchemaV100.entryOk = false := all_false_of_mem he hentry
    simp only [SchemaV100.validDoc, jOpt, hE]
    rw [hesall]
    simp only [Bool.and_false, Bool.false_and]
  · intro dfs m k v hM hk hn hx
    have hbad : (fun kv : String × JValue =>
        SchemaV100.metaPropNames.contains kv.1 || Fmt.xPrefixed kv.1) (k, v) = false := by
      show (SchemaV100.metaPropNames.contains k || Fmt.xPrefixed k) = false
      rw [hn, hx]
      rfl
    have hall : m.all (fun kv =>
        SchemaV100.metaPropNames.contains kv.1 || Fmt.xPrefixed kv.1) = false :=
      all_false_of_mem hk hbad
    have hmeta : SchemaV100.metaOk (.obj m) = false := by
      simp only [SchemaV100.metaOk]
      rw [hall]
      simp only [Bool.and_false]
    simp only [SchemaV100.validDoc, jOpt, hM]
    rw [hmeta]
    simp only [Bool.and_false, Bool.false_and]

/-- Witness for C7's universally quantified v1.0.0 parts, at the analogous
v1.0.0 documents with `custom_field` in an entry, then in the meta object. -/
theorem C7_unknown_fields_witness :
    SchemaV100.validDoc (.obj [
      ("spec_version", .str "nalt-protocol/1.0.0"),
      ("date", .str "2025-01-15"),
      ("meta", .obj [("language", .str "en"), ("timezone", .str "UTC")]),
      ("entries", .arr [.obj [
        ("entry_id", .str "e1"), ("type", .str "event"), ("mode", .str "morning"),
        ("content_format", .str "plain_text"), ("content", .str "hi"),
        ("custom_field", .str "v")]])]) = false ∧
    SchemaV100.validDoc (.obj [
      ("spec_version", .str "nalt-protocol/1.0.0"),
      ("date", .str "2025-01-15"),
      ("meta", .obj [("language", .str "en"), ("timezone", .str "UTC"),
        ("custom_field", .str "v")]),
      ("entries", .arr [.obj [
        ("entry_id", .str "e1"), ("type", .str "event"), ("mode", .str "morning"),
        ("content_format", .str "plain_text"), ("content", .str "hi")]])]) = false :=
  ⟨C7_unknown_fields_strict_only_v100.1 _
      [.obj [("entry_id", .str "e1"), ("type", .str "event"), ("mode", .str "morning"),
        ("content_format", .str "plain_text"), ("content", .str "hi"),
        ("custom_field", .str "v")]]
      [("entry_id", .str "e1"), ("type", .str "event"), ("mode", .str "morning"),
        ("content_format", .str "plain_text"), ("content", .str "hi"),
        ("custom_field", .str "v")]
      "custom_field" (.str "v") rfl (by simp) (by simp) (by decide) (by decide),
   C7_unknown_fields_strict_only_v100.2.1 _
      [("language", .str "en"), ("timezone", .str "UTC"), ("custom_field", .str "v")]
      "custom_field" (.str "v") rfl (by simp) (by decide) (by decide)⟩

/-! ## C8: mood intensity precision -/

/-- C8 counterexample: the claim says every version from 1.1.0 on rejects a
mood intensity of 0.855, but under the v1.2.0 slim-core schema moods are no
longer a schema field at all (an accepted additional property), so the
analogous v1.2.0 document containing `{"type": "happy", "intensity": 0.855}`
is fully valid. -/
theorem C8_counterexample :
    SchemaV120.validDoc (.obj [
      ("spec_version", .str "nalt-protocol/1.2.0"),
      ("document_id", .str "123e4567-e89b-42d3-a456-426614174000"),
      ("date", .str "2025-01-15"),
      ("meta", .obj [("language", .str "en"), ("timezone", .str "UTC")]),
      ("entries", .arr [.obj [
        ("entry_id", .str "e1"), ("type", .str "event"), ("mode", .str "morning"),
        ("content_format", .str "text/plain"), ("content", .str "hi"),
        ("moods", .arr [.obj [("type", .str "happy"),
          ("intensity", .num ⟨855, 3⟩)]])]])]) = true := by decide

/-- A version-`v` document whose single entry has one mood of intensity `q`
(the `spec_version` string and mood vocabulary are shared by all the schemas
involved). -/
def c8doc (v : String) (q : JNum) : JValue := .obj [
  ("spec_version", .str v),
  ("document_id", .str "123e4567-e89b-42d3-a456-426614174000"),
  ("date", .str "2025-01-15"),
  ("meta", .obj [("language", .str "en"), ("timezone", .str "UTC")]),
  ("entries", .arr [.obj [
    ("entry_id", .str "e1"), ("type", .str "event"), ("mode", .str "morning"),
    ("content_format", .str "text/plain"), ("content", .str "hi"),
    ("moods", .arr [.obj [("type", .str "happy"), ("intensity", .num q)]])]])]

/-- C8 amended: under v1.1.0 and v1.1.1 (`multipleOf: 0.01`), validation
fails the mood `{"type": "happy", "intensity": 0.855}` and accepts the same
document with `0.85`; under v1.0.0 the precision is unconstrained (0.855
passes) and only the closed interval `[0, 1]` is enforced (1.5 fails); under
v1.2.0 moods are extension-only and unconstrained (see the counterexample). -/
theorem C8_amended_intensity_precision :
    SchemaV110.validDoc (c8doc "nalt-protocol/1.1.0" ⟨855, 3⟩) = false ∧
    SchemaV110.validDoc (c8doc "nalt-protocol/1.1.0" ⟨85, 2⟩) = true ∧
    SchemaV111.validDoc (c8doc "nalt-protocol/1.1.1" ⟨855, 3⟩) = false ∧
    SchemaV111.validDoc (c8doc "nalt-protocol/1.1.1" ⟨85, 2⟩) = true ∧
    SchemaV100.validDoc (c8doc "nalt-protocol/1.0.0" ⟨855, 3⟩) = true ∧
    SchemaV100.validDoc (c8doc "nalt-protocol/1.0.0" ⟨15, 1⟩) = false := by decide
